import Mathlib

/-!
Verification of the Vrroom configurator core (src/app.py) against its
natural-language specification.  The Python code is shallowly embedded:
dictionaries become association lists, Python values that are sometimes
strings and sometimes integers become an explicit sum type `Val`, socket
traffic becomes an oracle `String → Option String` (`none` models a raised
transport exception), and statements that can raise `AttributeError`
return `Option`.  All definitions are executable.
-/

/-! ## Python string primitives (ASCII fragment)

`pyUpper`/`pyLower` model `str.upper()`/`str.lower()` on ASCII text,
`pySplit` models `str.split()` with no argument (split on whitespace runs,
dropping empty tokens), `pyStrip` models `str.strip()`. -/

def isSpaceChar : Char → Bool
  | ' ' | '\t' | '\n' | '\r' | '\x0b' | '\x0c' => true
  | _ => false

def pyUpper (s : String) : String := String.mk (s.toList.map Char.toUpper)

def pyLower (s : String) : String := String.mk (s.toList.map Char.toLower)

def pySplitAux : List Char → List Char → List String
  | [], [] => []
  | [], acc => [String.mk acc.reverse]
  | c :: rest, acc =>
    if isSpaceChar c then
      if acc.isEmpty then pySplitAux rest []
      else String.mk acc.reverse :: pySplitAux rest []
    else pySplitAux rest (c :: acc)

def pySplit (s : String) : List String := pySplitAux s.toList []

def pyStripList (l : List Char) : List Char :=
  ((l.dropWhile isSpaceChar).reverse.dropWhile isSpaceChar).reverse

def pyStrip (s : String) : String := String.mk (pyStripList s.toList)

/-- `listPrefixOf p l` is true when `p` is a prefix of `l`
(Python `str.startswith`). -/
def listPrefixOf : List Char → List Char → Bool
  | [], _ => true
  | _ :: _, [] => false
  | a :: as, b :: bs => a = b && listPrefixOf as bs

/-- `listInfixOf n h` is true when `n` occurs as a contiguous substring of
`h` (Python `needle in haystack`). -/
def listInfixOf : List Char → List Char → Bool
  | n, [] => n.isEmpty
  | n, h@(_ :: t) => listPrefixOf n h || listInfixOf n t

/-- Python `needle in haystack` on strings. -/
def containsSub (needle hay : String) : Bool := listInfixOf needle.toList hay.toList

/-! ## Signal-Status Parser (`VrroomConnection._parse_signal_status`) -/

/-- One parsed video reading, the dict built by `_parse_signal_status`.
Fields the Python code leaves unset (e.g. `scan_type` when no resolution
token matches) are `none`. -/
structure SignalInfo where
  raw : String
  resolution : Option String := none
  refresh_rate : Option Nat := none
  scan_type : Option String := none
  color_space : Option String := none
  bit_depth : Option String := none
  hdr_format : String := "SDR"
  colorimetry : Option String := none
deriving DecidableEq

def digitsToNat (l : List Char) : Nat :=
  l.foldl (fun a c => a * 10 + (c.toNat - '0'.toNat)) 0

/-- The regex `(\d+)X(\d+)([PI])(\d+)` applied with `re.match` (anchored at
the start of the token, trailing characters allowed).  Returns the two
resolution digit groups, the P/I flag, and the refresh-rate group. -/
def parseResToken (t : List Char) : Option (List Char × List Char × Char × Nat) :=
  let (d1, r1) := t.span Char.isDigit
  if d1.isEmpty then none else
  match r1 with
  | 'X' :: r2 =>
    let (d2, r3) := r2.span Char.isDigit
    if d2.isEmpty then none else
    match r3 with
    | c :: r4 =>
      if c = 'P' || c = 'I' then
        let (d3, _) := r4.span Char.isDigit
        if d3.isEmpty then none else some (d1, d2, c, digitsToNat d3)
      else none
    | [] => none
  | _ => none

/-- The regex `\d+B` applied with `re.match` to a token. -/
def isBitDepthToken (t : List Char) : Bool :=
  let (d, r) := t.span Char.isDigit
  !d.isEmpty && (match r with | 'B' :: _ => true | _ => false)

/-- The HDR-format priority chain of `_parse_signal_status` (src/app.py
lines 601-614): `'DV' in parts or 'DOLBY' in response.upper()` first
(LLDV when `'LLDV'` is a substring, else Dolby Vision), then HDR10+,
HDR10, HLG, else SDR.  `parts` is `response.upper().split()`. -/
def hdrFormatOf (response : String) : String :=
  let up := pyUpper response
  let parts := pySplit up
  if parts.contains "DV" || containsSub "DOLBY" up then
    if containsSub "LLDV" up then "LLDV" else "Dolby Vision"
  else if containsSub "HDR10+" up || containsSub "HDR10PLUS" up then "HDR10+"
  else if containsSub "HDR10" up || parts.contains "HDR" then "HDR10"
  else if parts.contains "HLG" then "HLG"
  else "SDR"

/-- The colorimetry checks of `_parse_signal_status` (lines 616-620). -/
def colorimetryOf (response : String) : Option String :=
  let up := pyUpper response
  if containsSub "BT2020" up || containsSub "BT.2020" up then some "BT.2020"
  else if containsSub "BT709" up || containsSub "BT.709" up then some "BT.709"
  else none

/-- `VrroomConnection._parse_signal_status` (src/app.py lines 563-622).
The `port` parameter of the Python method is unused by its body and is
dropped.  An empty response returns the initial dict unchanged. -/
def parse_signal_status (response : String) : SignalInfo :=
  if response = "" then { raw := response } else
  let up := pyUpper response
  let parts := pySplit up
  let resM := parts.findSome? (fun p => parseResToken p.toList)
  { raw := response
    resolution := resM.map (fun m => String.mk m.1 ++ "x" ++ String.mk m.2.1)
    refresh_rate := resM.map (fun m => m.2.2.2)
    scan_type := resM.map (fun m => if m.2.2.1 = 'P' then "progressive" else "interlaced")
    color_space := parts.find? (fun p => ["422", "444", "RGB", "420"].contains p)
    bit_depth := parts.find? (fun p => isBitDepthToken p.toList)
    hdr_format := hdrFormatOf response
    colorimetry := colorimetryOf response }

/-- The HDR-format rule exactly as the claim states it: "contains DV" read
as substring containment, like the claim's other "contains" conditions
(the claim reserves "standalone token" for HDR and HLG). -/
def hdrFormatClaimed (response : String) : String :=
  let up := pyUpper response
  let parts := pySplit up
  if containsSub "DV" up || containsSub "DOLBY" up then
    if containsSub "LLDV" up then "LLDV" else "Dolby Vision"
  else if containsSub "HDR10+" up || containsSub "HDR10PLUS" up then "HDR10+"
  else if containsSub "HDR10" up || parts.contains "HDR" then "HDR10"
  else if parts.contains "HLG" then "HLG"
  else "SDR"

/-- The amended HDR-format rule: the first condition tests `DV` as a
standalone whitespace-delimited token (or `DOLBY` as a substring); the
rest of the chain is unchanged from the claim. -/
def hdrFormatAmended (response : String) : String :=
  let up := pyUpper response
  let parts := pySplit up
  if parts.contains "DV" || containsSub "DOLBY" up then
    if containsSub "LLDV" up then "LLDV" else "Dolby Vision"
  else if containsSub "HDR10+" up || containsSub "HDR10PLUS" up then "HDR10+"
  else if containsSub "HDR10" up || parts.contains "HDR" then "HDR10"
  else if parts.contains "HLG" then "HLG"
  else "SDR"

/-- C1 counterexample: on the raw status string "LLDV" the claim's rule
(substring "DV" is present, and so is "LLDV") yields LLDV, but the
parser returns SDR because `'DV' in parts` tests whole tokens and the only
token is "LLDV". -/
theorem c1_counterexample :
    hdrFormatClaimed "LLDV" = "LLDV" ∧ (parse_signal_status "LLDV").hdr_format = "SDR" ∧
      (parse_signal_status "LLDV").hdr_format ≠ hdrFormatClaimed "LLDV" := by
  refine ⟨by decide, by decide, by decide⟩

/-- C1 (amended): for every raw status string the parser's HDR-format field
is decided by the priority chain with the first condition reading `DV` as a
standalone token (`'DV' in parts`) or `DOLBY` as a substring; the rest of
the chain is as the claim states it. -/
theorem c1_hdr_priority_chain (s : String) :
    (parse_signal_status s).hdr_format = hdrFormatAmended s := by
  unfold parse_signal_status
  by_cases h : s = ""
  · subst h; decide
  · simp only [if_neg h]
    rfl

/-- C6: the Signal-Status Parser is total (it is a Lean function
`String → SignalInfo`, so it returns a descriptor on every input without
raising); it always preserves the raw string; when no token matches the
resolution pattern, resolution and refresh rate are `none`; when none of
the HDR conditions holds the HDR format is "SDR"; and the empty string
yields the all-default descriptor with the empty raw string preserved. -/
theorem c6_signal_status_total :
    (∀ s, (parse_signal_status s).raw = s)
    ∧ (∀ s, ((pySplit (pyUpper s)).all fun p => (parseResToken p.toList).isNone) = true →
        (parse_signal_status s).resolution = none ∧
        (parse_signal_status s).refresh_rate = none ∧
        (parse_signal_status s).scan_type = none)
    ∧ (∀ s, (pySplit (pyUpper s)).contains "DV" = false →
        containsSub "DOLBY" (pyUpper s) = false →
        containsSub "HDR10+" (pyUpper s) = false →
        containsSub "HDR10PLUS" (pyUpper s) = false →
        containsSub "HDR10" (pyUpper s) = false →
        (pySplit (pyUpper s)).contains "HDR" = false →
        (pySplit (pyUpper s)).contains "HLG" = false →
        (parse_signal_status s).hdr_format = "SDR")
    ∧ parse_signal_status "" = { raw := "" } := by
  refine ⟨fun s => ?_, fun s h => ?_, fun s h1 h2 h3 h4 h5 h6 h7 => ?_, by decide⟩
  · unfold parse_signal_status
    by_cases h : s = "" <;> simp [h]
  · have hres : (pySplit (pyUpper s)).findSome? (fun p => parseResToken p.toList) = none := by
      rw [List.findSome?_eq_none_iff]
      intro x hx
      have := (List.all_eq_true.mp h) x hx
      exact Option.isNone_iff_eq_none.mp this
    unfold parse_signal_status
    by_cases hs : s = ""
    · subst hs; exact ⟨rfl, rfl, rfl⟩
    · simp only [if_neg hs, hres]
      exact ⟨rfl, rfl, rfl⟩
  · have hchain : hdrFormatOf s = "SDR" := by
      have h1' : "DV" ∉ pySplit (pyUpper s) := by simpa using h1
      have h6' : "HDR" ∉ pySplit (pyUpper s) := by simpa using h6
      have h7' : "HLG" ∉ pySplit (pyUpper s) := by simpa using h7
      simp [hdrFormatOf, h1', h2, h3, h4, h5, h6', h7']
    unfold parse_signal_status
    by_cases hs : s = ""
    · subst hs; rfl
    · simp only [if_neg hs]
      exact hchain

/-- C6 witness: the theorem applied at the concrete inputs "" and "hello". -/
theorem c6_signal_status_total_witness :
    (parse_signal_status "hello").raw = "hello" ∧
      (parse_signal_status "hello").resolution = none ∧
      (parse_signal_status "hello").hdr_format = "SDR" := by
  refine ⟨c6_signal_status_total.1 "hello", (c6_signal_status_total.2.1 "hello" (by decide)).1, ?_⟩
  exact c6_signal_status_total.2.2.1 "hello" (by decide) (by decide) (by decide) (by decide)
    (by decide) (by decide) (by decide)

/-! ## Python values and dictionaries

Settings snapshots map string keys to values that are strings, integers or
booleans (`_optimized` is `True`).  A dictionary is an association list
with Python semantics: lookup finds the first binding, assignment replaces
an existing binding in place or appends a new one. -/

inductive Val where
  | str (s : String)
  | int (n : Int)
  | bool (b : Bool)
deriving DecidableEq

/-- Python truthiness of a value. -/
def valTruthy : Val → Bool
  | .str s => s ≠ ""
  | .int n => n ≠ 0
  | .bool b => b

/-- Python `int(x)` for our value type: an `int` is returned unchanged, a
`bool` becomes 0/1, a string is parsed (strip whitespace, optional sign,
digits with CPython's underscore rule); `none` models `ValueError`. -/
def digitsRestValid : List Char → Bool
  | [] => true
  | ['_'] => false
  | '_' :: c :: t => c.isDigit && digitsRestValid t
  | c :: t => c.isDigit && digitsRestValid t

def parseDigitGroup (l : List Char) : Option Nat :=
  match l with
  | c :: t =>
    if c.isDigit && digitsRestValid t then some (digitsToNat (l.filter (· ≠ '_')))
    else none
  | [] => none

def pyParseInt (s : String) : Option Int :=
  match pyStripList s.toList with
  | '+' :: rest => (parseDigitGroup rest).map Int.ofNat
  | '-' :: rest => (parseDigitGroup rest).map (fun n => -(n : Int))
  | rest => (parseDigitGroup rest).map Int.ofNat

/-- The `try: int(x) except: x = 0` idiom of `_check_unmute_delays`. -/
def intValOrZero : Val → Int
  | .str s => (pyParseInt s).getD 0
  | .int n => n
  | .bool b => if b then 1 else 0

def dictGet {α : Type} : List (String × α) → String → Option α
  | [], _ => none
  | (k', v) :: t, k => if k' = k then some v else dictGet t k

def dictSet {α : Type} : List (String × α) → String → α → List (String × α)
  | [], k, v => [(k, v)]
  | (k', v') :: t, k, v => if k' = k then (k, v) :: t else (k', v') :: dictSet t k v

/-- `d.get(k, dflt)`. -/
def dictGetD {α : Type} (d : List (String × α)) (k : String) (dflt : α) : α :=
  (dictGet d k).getD dflt

theorem dictGet_dictSet {α : Type} (d : List (String × α)) (k k' : String) (v : α) :
    dictGet (dictSet d k v) k' = if k' = k then some v else dictGet d k' := by
  induction d with
  | nil =>
    by_cases h : k' = k
    · subst h; simp [dictSet, dictGet]
    · have h2 : ¬ k = k' := fun he => h he.symm
      simp [dictSet, dictGet, h, h2]
  | cons p t ih =>
    obtain ⟨k0, v0⟩ := p
    by_cases h0 : k0 = k
    · subst h0
      by_cases h : k' = k0
      · subst h; simp [dictSet, dictGet]
      · have h2 : ¬ k0 = k' := fun he => h he.symm
        simp [dictSet, dictGet, h, h2]
    · by_cases h : k' = k0
      · subst h
        have h2 : ¬ k' = k := fun he => h0 (he ▸ rfl)
        simp [dictSet, dictGet, h0, h2]
      · have h2 : ¬ k0 = k' := fun he => h he.symm
        simp [dictSet, dictGet, h0, h2, ih]

theorem length_dictSet_of_not_mem {α : Type} (d : List (String × α)) (k : String) (v : α)
    (h : dictGet d k = none) : (dictSet d k v).length = d.length + 1 := by
  induction d with
  | nil => simp [dictSet]
  | cons p t ih =>
    obtain ⟨k0, v0⟩ := p
    by_cases h0 : k0 = k
    · simp [dictGet, h0] at h
    · simp [dictGet, h0] at h
      simp [dictSet, h0, ih h]

/-! ## Config Rule Engine (`VrroomConfigAnalyzer`, src/app.py 4413-4615) -/

/-- An issue dict as built by `VrroomConfigAnalyzer._add_issue`: `setting`,
`current_value` and `recommended_value` are present only when the
corresponding argument was truthy / not `None`. -/
structure AIssue where
  severity : String
  title : String
  description : String
  setting : Option String := none
  current_value : Option Val := none
  recommended_value : Option Val := none
deriving DecidableEq

/-- A recommendation dict appended by the analyzer's checks. -/
structure ARec where
  title : String
  description : String
deriving DecidableEq

/-- The analyzer object: `self.config`, `self.issues`,
`self.recommendations`. -/
structure Analyzer where
  config : List (String × Val)
  issues : List AIssue
  recommendations : List ARec
deriving DecidableEq

/-- The issue dict `VrroomConfigAnalyzer._add_issue` builds (lines
4454-4467): the `setting` key is stored only when the argument is truthy
and the value keys only when not `None`. -/
def mkIssue (severity title description : String)
    (setting : Option String) (current recommended : Option Val) : AIssue :=
  { severity := severity, title := title, description := description,
    setting := match setting with
      | some s => if s = "" then none else some s
      | none => none,
    current_value := current, recommended_value := recommended }

/-- `VrroomConfigAnalyzer._add_issue`: append the issue dict. -/
def add_issue (st : Analyzer) (severity title description : String)
    (setting : Option String) (current recommended : Option Val) : Analyzer :=
  { st with issues := st.issues ++ [mkIssue severity title description setting current recommended] }

def add_rec (st : Analyzer) (title description : String) : Analyzer :=
  { st with recommendations := st.recommendations ++ [{ title := title, description := description }] }

/-- `self.config.get(key, dflt).lower()`: `none` models the
`AttributeError` Python raises when the stored value is not a string. -/
def config_get_lower (cfg : List (String × Val)) (key dflt : String) : Option String :=
  match dictGet cfg key with
  | none => some (pyLower dflt)
  | some (.str s) => some (pyLower s)
  | some _ => none

/-- `VrroomConfigAnalyzer._check_edid_mode` (lines 4469-4492). -/
def check_edid_mode (st : Analyzer) : Option Analyzer :=
  (config_get_lower st.config "edidmode" "").map fun edid_mode =>
    let st :=
      if edid_mode = "fixed" then
        add_issue st "warning" "Fixed EDID Mode"
          "Fixed EDID mode limits sink capabilities. Consider AutoMix for better compatibility."
          (some "edidmode") (some (.str edid_mode)) (some (.str "automix"))
      else if edid_mode ≠ "" ∧ ¬ ["automix", "custom", "copytx0", "copytx1"].contains edid_mode then
        add_issue st "info" "Unknown EDID Mode"
          ("EDID mode '" ++ edid_mode ++ "' not recognized. AutoMix recommended for most setups.")
          (some "edidmode") (some (.str edid_mode)) (some (.str "automix"))
      else st
    if edid_mode = "automix" then
      add_rec st "EDID Mode Optimal"
        "AutoMix mode allows dynamic EDID modification for LLDV injection."
    else st

/-- `VrroomConfigAnalyzer._check_unmute_delays` (lines 4494-4532). -/
def check_unmute_delays (st : Analyzer) : Option Analyzer :=
  let unmute_delay := intValOrZero (dictGetD st.config "unmutedelay" (.int 0))
  let earc_unmute := intValOrZero (dictGetD st.config "earcunmute" (.int 0))
  let st :=
    if unmute_delay > 500 then
      add_issue st "critical" "High Unmute Delay"
        ("Unmute delay of " ++ toString unmute_delay ++
          "ms adds significant latency. Try reducing to 200-300ms if no audio pops occur.")
        (some "unmutedelay") (some (.int unmute_delay)) (some (.int 250))
    else if unmute_delay = 0 then
      add_issue st "info" "No Unmute Delay"
        "Zero unmute delay may cause audio pops on some systems. Add 100-200ms if you hear clicks/pops on format changes."
        (some "unmutedelay") (some (.int 0)) (some (.int 150))
    else st
  some <|
    if earc_unmute > 500 then
      add_issue st "warning" "High eARC Unmute Delay"
        ("eARC unmute delay of " ++ toString earc_unmute ++ "ms may cause noticeable audio lag.")
        (some "earcunmute") (some (.int earc_unmute)) (some (.int 300))
    else st

/-- `VrroomConfigAnalyzer._check_dv_settings` (lines 4534-4550). -/
def check_dv_settings (st : Analyzer) : Option Analyzer :=
  (config_get_lower st.config "ediddvflag" "off").map fun dv_flag =>
    let st :=
      if dv_flag = "off" then
        add_issue st "info" "Dolby Vision Disabled"
          "DV EDID flag is off. Enable for LLDV support on non-DV displays."
          (some "ediddvflag") (some (.str "off")) (some (.str "on"))
      else st
    if dv_flag = "on" then
      add_rec st "DV Enabled"
        "Ensure LLDV-compatible DV string is selected (X930E or similar) for non-DV projectors."
    else st

/-- `VrroomConfigAnalyzer._check_hdr_settings` (lines 4552-4569). -/
def check_hdr_settings (st : Analyzer) : Option Analyzer :=
  (config_get_lower st.config "edidhdrflag" "on").bind fun hdr_flag =>
  (config_get_lower st.config "hdrcustom" "off").map fun hdr_custom =>
    let st :=
      if hdr_flag = "off" then
        add_issue st "warning" "HDR Disabled in EDID"
          "HDR flag is disabled. Sources won't output HDR content."
          (some "edidhdrflag") (some (.str "off")) (some (.str "on"))
      else st
    if hdr_custom = "on" then
      add_rec st "Custom HDR Injection Active"
        "Note: Custom HDR injection automatically disables under VRR signals."
    else st

/-- `VrroomConfigAnalyzer._check_hdcp_settings` (lines 4571-4581). -/
def check_hdcp_settings (st : Analyzer) : Option Analyzer :=
  (config_get_lower st.config "hdcpmode" "auto").map fun hdcp_mode =>
    if hdcp_mode ≠ "auto" then
      add_issue st "info" "Manual HDCP Mode"
        ("HDCP is set to '" ++ hdcp_mode ++ "'. Auto mode is recommended unless troubleshooting.")
        (some "hdcpmode") (some (.str hdcp_mode)) (some (.str "auto"))
    else st

/-- `VrroomConfigAnalyzer._check_cec_settings` (lines 4583-4589). -/
def check_cec_settings (st : Analyzer) : Analyzer :=
  match dictGet st.config "cecenabled" with
  | some v =>
    if valTruthy v then
      add_rec st "CEC Enabled"
        "CEC can add latency on input switches. Disable if not using TV/AVR power control features."
    else st
  | none => st

/-- `VrroomConfigAnalyzer._check_audio_routing` (lines 4591-4600). -/
def check_audio_routing (st : Analyzer) : Option Analyzer :=
  (config_get_lower st.config "audioout" "").bind fun audio_out =>
  (config_get_lower st.config "earcmode" "").map fun earc_mode =>
    if audio_out = "earc" ∨ ["auto earc", "earc"].contains earc_mode then
      add_rec st "eARC Audio Routing"
        "eARC provides best audio quality. Ensure eARC device is powered on before source."
    else st

/-- The sequence of checks run by `VrroomConfigAnalyzer.analyze`
(lines 4435-4441), threading the analyzer state. -/
def analyze_steps (st : Analyzer) : Option Analyzer :=
  (check_edid_mode st).bind fun st =>
  (check_unmute_delays st).bind fun st =>
  (check_dv_settings st).bind fun st =>
  (check_hdr_settings st).bind fun st =>
  (check_hdcp_settings st).bind fun st =>
  check_audio_routing (check_cec_settings st)

/-- The fold body of `_generate_optimized_config` (lines 4606-4609): a
critical/warning issue carrying both a setting key and a recommended value
is copied into the snapshot. -/
def applyIssue (acc : List (String × Val)) (i : AIssue) : List (String × Val) :=
  if i.severity = "critical" ∨ i.severity = "warning" then
    match i.setting, i.recommended_value with
    | some k, some v => dictSet acc k v
    | _, _ => acc
  else acc

/-- `VrroomConfigAnalyzer._generate_optimized_config` (lines 4602-4615);
`now` stands for `datetime.now().isoformat()`. -/
def generate_optimized (issues : List AIssue) (config : List (String × Val)) (now : String) :
    List (String × Val) :=
  let optimized := issues.foldl applyIssue config
  dictSet (dictSet (dictSet optimized "_optimized" (.bool true))
    "_optimized_date" (.str now)) "_optimized_by" (.str "AV Signal Lab")

/-- The dict returned by `VrroomConfigAnalyzer.analyze` (lines 4443-4452). -/
structure AnalyzeResult where
  issues : List AIssue
  recommendations : List ARec
  critical_count : Nat
  warning_count : Nat
  info_count : Nat
  optimized : List (String × Val)
deriving DecidableEq

/-- `VrroomConfigAnalyzer.analyze` on a settings snapshot (`AnalyzeSnapshot`):
resets the issue and recommendation lists, runs the checks, and returns the
issues, counts and the corrected snapshot.  `none` models an
`AttributeError` raised on a non-string setting value. -/
def analyze_config (cfg : List (String × Val)) (now : String) : Option AnalyzeResult :=
  (analyze_steps { config := cfg, issues := [], recommendations := [] }).map fun st =>
    { issues := st.issues
      recommendations := st.recommendations
      critical_count := st.issues.countP (fun i => i.severity = "critical")
      warning_count := st.issues.countP (fun i => i.severity = "warning")
      info_count := st.issues.countP (fun i => i.severity = "info")
      optimized := generate_optimized st.issues st.config now }

/-- The C3 scenario snapshot. -/
def c3cfg : List (String × Val) := [("edidmode", .str "fixed"), ("unmutedelay", .str "600")]

/-- C3: on the snapshot with edidmode "fixed" and unmutedelay "600" the
analyzer reports a warning on `edidmode` recommending "automix" and a
critical on `unmutedelay` recommending 250, and the corrected snapshot
maps `edidmode` to "automix" and `unmutedelay` to 250. -/
theorem c3_scenario :
    ∃ r, analyze_config c3cfg "2024-01-01T00:00:00" = some r ∧
      (∃ i ∈ r.issues, i.severity = "warning" ∧ i.setting = some "edidmode" ∧
        i.recommended_value = some (.str "automix")) ∧
      (∃ i ∈ r.issues, i.severity = "critical" ∧ i.setting = some "unmutedelay" ∧
        i.recommended_value = some (.int 250)) ∧
      dictGet r.optimized "edidmode" = some (.str "automix") ∧
      dictGet r.optimized "unmutedelay" = some (.int 250) := by
  refine ⟨((analyze_config c3cfg "2024-01-01T00:00:00").getD
    ⟨[], [], 0, 0, 0, []⟩), by decide, by decide, by decide, by decide, by decide⟩

/-! ### The issues and recommendations each check contributes

These blocks restate, per check, exactly what the check appends; the
`..._spec` lemmas below prove them against the check functions. -/

def edidIssues (em : String) : List AIssue :=
  if em = "fixed" then
    [mkIssue "warning" "Fixed EDID Mode"
      "Fixed EDID mode limits sink capabilities. Consider AutoMix for better compatibility."
      (some "edidmode") (some (.str em)) (some (.str "automix"))]
  else if em ≠ "" ∧ ¬ ["automix", "custom", "copytx0", "copytx1"].contains em then
    [mkIssue "info" "Unknown EDID Mode"
      ("EDID mode '" ++ em ++ "' not recognized. AutoMix recommended for most setups.")
      (some "edidmode") (some (.str em)) (some (.str "automix"))]
  else []

def edidRecs (em : String) : List ARec :=
  if em = "automix" then
    [{ title := "EDID Mode Optimal",
       description := "AutoMix mode allows dynamic EDID modification for LLDV injection." }]
  else []

def unmuteIssues (ud eu : Int) : List AIssue :=
  (if ud > 500 then
    [mkIssue "critical" "High Unmute Delay"
      ("Unmute delay of " ++ toString ud ++
        "ms adds significant latency. Try reducing to 200-300ms if no audio pops occur.")
      (some "unmutedelay") (some (.int ud)) (some (.int 250))]
  else if ud = 0 then
    [mkIssue "info" "No Unmute Delay"
      "Zero unmute delay may cause audio pops on some systems. Add 100-200ms if you hear clicks/pops on format changes."
      (some "unmutedelay") (some (.int 0)) (some (.int 150))]
  else []) ++
  (if eu > 500 then
    [mkIssue "warning" "High eARC Unmute Delay"
      ("eARC unmute delay of " ++ toString eu ++ "ms may cause noticeable audio lag.")
      (some "earcunmute") (some (.int eu)) (some (.int 300))]
  else [])

def dvIssues (dv : String) : List AIssue :=
  if dv = "off" then
    [mkIssue "info" "Dolby Vision Disabled"
      "DV EDID flag is off. Enable for LLDV support on non-DV displays."
      (some "ediddvflag") (some (.str "off")) (some (.str "on"))]
  else []

def dvRecs (dv : String) : List ARec :=
  if dv = "on" then
    [{ title := "DV Enabled",
       description := "Ensure LLDV-compatible DV string is selected (X930E or similar) for non-DV projectors." }]
  else []

def hdrIssues (hf : String) : List AIssue :=
  if hf = "off" then
    [mkIssue "warning" "HDR Disabled in EDID"
      "HDR flag is disabled. Sources won't output HDR content."
      (some "edidhdrflag") (some (.str "off")) (some (.str "on"))]
  else []

def hdrRecs (hc : String) : List ARec :=
  if hc = "on" then
    [{ title := "Custom HDR Injection Active",
       description := "Note: Custom HDR injection automatically disables under VRR signals." }]
  else []

def hdcpIssues (hm : String) : List AIssue :=
  if hm ≠ "auto" then
    [mkIssue "info" "Manual HDCP Mode"
      ("HDCP is set to '" ++ hm ++ "'. Auto mode is recommended unless troubleshooting.")
      (some "hdcpmode") (some (.str hm)) (some (.str "auto"))]
  else []

def cecRecs (cfg : List (String × Val)) : List ARec :=
  match dictGet cfg "cecenabled" with
  | some v =>
    if valTruthy v then
      [{ title := "CEC Enabled",
         description := "CEC can add latency on input switches. Disable if not using TV/AVR power control features." }]
    else []
  | none => []

def audioRecs (ao em2 : String) : List ARec :=
  if ao = "earc" ∨ ["auto earc", "earc"].contains em2 then
    [{ title := "eARC Audio Routing",
       description := "eARC provides best audio quality. Ensure eARC device is powered on before source." }]
  else []

def udOf (cfg : List (String × Val)) : Int := intValOrZero (dictGetD cfg "unmutedelay" (.int 0))

def euOf (cfg : List (String × Val)) : Int := intValOrZero (dictGetD cfg "earcunmute" (.int 0))

def allIssues (em : String) (ud eu : Int) (dv hf hm : String) : List AIssue :=
  edidIssues em ++ unmuteIssues ud eu ++ dvIssues dv ++ hdrIssues hf ++ hdcpIssues hm

theorem check_edid_mode_spec (cfg : List (String × Val)) (iss : List AIssue)
    (recs : List ARec) (em : String)
    (h : config_get_lower cfg "edidmode" "" = some em) :
    check_edid_mode ⟨cfg, iss, recs⟩ = some ⟨cfg, iss ++ edidIssues em, recs ++ edidRecs em⟩ := by
  unfold check_edid_mode edidIssues edidRecs
  rw [show (Analyzer.mk cfg iss recs).config = cfg from rfl, h]
  simp only [Option.map_some']
  by_cases h1 : em = "fixed"
  · subst h1
    simp [add_issue, add_rec, mkIssue]
  · by_cases h2 : em ≠ "" ∧ ¬ ["automix", "custom", "copytx0", "copytx1"].contains em
    · by_cases h3 : em = "automix"
      · subst h3; simp at h2
      · simp [h1, h2, h3, add_issue, add_rec, mkIssue] <;> split <;> simp
    · by_cases h3 : em = "automix" <;>
        simp [h1, h2, h3, add_issue, add_rec, mkIssue] <;> split <;> simp

theorem check_unmute_delays_spec (cfg : List (String × Val)) (iss : List AIssue)
    (recs : List ARec) :
    check_unmute_delays ⟨cfg, iss, recs⟩ = some ⟨cfg, iss ++ unmuteIssues (udOf cfg) (euOf cfg), recs⟩ := by
  unfold check_unmute_delays unmuteIssues udOf euOf
  by_cases h1 : intValOrZero (dictGetD cfg "unmutedelay" (.int 0)) > 500 <;>
    by_cases h2 : intValOrZero (dictGetD cfg "unmutedelay" (.int 0)) = 0 <;>
    by_cases h3 : intValOrZero (dictGetD cfg "earcunmute" (.int 0)) > 500 <;>
    simp [h1, h2, h3, add_issue, mkIssue]

theorem check_dv_settings_spec (cfg : List (String × Val)) (iss : List AIssue)
    (recs : List ARec) (dv : String)
    (h : config_get_lower cfg "ediddvflag" "off" = some dv) :
    check_dv_settings ⟨cfg, iss, recs⟩ = some ⟨cfg, iss ++ dvIssues dv, recs ++ dvRecs dv⟩ := by
  unfold check_dv_settings dvIssues dvRecs
  rw [show (Analyzer.mk cfg iss recs).config = cfg from rfl, h]
  simp only [Option.map_some']
  by_cases h1 : dv = "off" <;> by_cases h2 : dv = "on" <;>
    simp [h1, h2, add_issue, add_rec, mkIssue]

theorem check_hdr_settings_spec (cfg : List (String × Val)) (iss : List AIssue)
    (recs : List ARec) (hf hc : String)
    (h : config_get_lower cfg "edidhdrflag" "on" = some hf)
    (h2 : config_get_lower cfg "hdrcustom" "off" = some hc) :
    check_hdr_settings ⟨cfg, iss, recs⟩ = some ⟨cfg, iss ++ hdrIssues hf, recs ++ hdrRecs hc⟩ := by
  unfold check_hdr_settings hdrIssues hdrRecs
  rw [show (Analyzer.mk cfg iss recs).config = cfg from rfl, h, h2]
  simp only [Option.some_bind, Option.map_some']
  by_cases h3 : hf = "off" <;> by_cases h4 : hc = "on" <;>
    simp [h3, h4, add_issue, add_rec, mkIssue]

theorem check_hdcp_settings_spec (cfg : List (String × Val)) (iss : List AIssue)
    (recs : List ARec) (hm : String)
    (h : config_get_lower cfg "hdcpmode" "auto" = some hm) :
    check_hdcp_settings ⟨cfg, iss, recs⟩ = some ⟨cfg, iss ++ hdcpIssues hm, recs⟩ := by
  unfold check_hdcp_settings hdcpIssues
  rw [show (Analyzer.mk cfg iss recs).config = cfg from rfl, h]
  simp only [Option.map_some']
  by_cases h1 : hm = "auto" <;> simp [h1, add_issue, mkIssue]

theorem check_cec_settings_spec (cfg : List (String × Val)) (iss : List AIssue)
    (recs : List ARec) :
    check_cec_settings ⟨cfg, iss, recs⟩ = ⟨cfg, iss, recs ++ cecRecs cfg⟩ := by
  unfold check_cec_settings cecRecs
  rw [show (Analyzer.mk cfg iss recs).config = cfg from rfl]
  cases dictGet cfg "cecenabled" with
  | none => simp
  | some v => by_cases h : valTruthy v <;> simp [h, add_rec]

theorem check_audio_routing_spec (cfg : List (String × Val)) (iss : List AIssue)
    (recs : List ARec) (ao em2 : String)
    (h : config_get_lower cfg "audioout" "" = some ao)
    (h2 : config_get_lower cfg "earcmode" "" = some em2) :
    check_audio_routing ⟨cfg, iss, recs⟩ = some ⟨cfg, iss, recs ++ audioRecs ao em2⟩ := by
  unfold check_audio_routing audioRecs
  rw [show (Analyzer.mk cfg iss recs).config = cfg from rfl, h, h2]
  simp only [Option.some_bind, Option.map_some']
  split <;> rename_i hcond <;> simp [add_rec, hcond]

/-- What one full run of the checks appends, given that every
`config.get(...).lower()` succeeded. -/
theorem analyze_steps_spec (cfg : List (String × Val)) (iss : List AIssue)
    (recs : List ARec) (em dv hf hc hm ao em2 : String)
    (h1 : config_get_lower cfg "edidmode" "" = some em)
    (h2 : config_get_lower cfg "ediddvflag" "off" = some dv)
    (h3 : config_get_lower cfg "edidhdrflag" "on" = some hf)
    (h4 : config_get_lower cfg "hdrcustom" "off" = some hc)
    (h5 : config_get_lower cfg "hdcpmode" "auto" = some hm)
    (h6 : config_get_lower cfg "audioout" "" = some ao)
    (h7 : config_get_lower cfg "earcmode" "" = some em2) :
    analyze_steps ⟨cfg, iss, recs⟩ =
      some ⟨cfg, iss ++ allIssues em (udOf cfg) (euOf cfg) dv hf hm,
        recs ++ edidRecs em ++ dvRecs dv ++ hdrRecs hc ++ cecRecs cfg ++ audioRecs ao em2⟩ := by
  unfold analyze_steps
  rw [check_edid_mode_spec cfg iss recs em h1]
  simp only [Option.some_bind]
  rw [check_unmute_delays_spec cfg _ _]
  simp only [Option.some_bind]
  rw [check_dv_settings_spec cfg _ _ dv h2]
  simp only [Option.some_bind]
  rw [check_hdr_settings_spec cfg _ _ hf hc h3 h4]
  simp only [Option.some_bind]
  rw [check_hdcp_settings_spec cfg _ _ hm h5]
  simp only [Option.some_bind]
  rw [check_cec_settings_spec cfg _ _]
  rw [check_audio_routing_spec cfg _ _ ao em2 h6 h7]
  simp [allIssues]

/-! ### Where the corrected snapshot differs from the input

`lastWrite k issues` is the value the correction fold writes at key `k`
(the last critical/warning issue carrying setting `k`), `none` when the
fold leaves `k` alone. -/

def issueWrites (i : AIssue) (k : String) : Bool :=
  (i.severity == "critical" || i.severity == "warning") && i.setting == some k

def lastWrite (k : String) : List AIssue → Option Val
  | [] => none
  | i :: is =>
    match lastWrite k is with
    | some v => some v
    | none => if issueWrites i k then i.recommended_value else none

theorem dictGet_foldl_applyIssue (l : List AIssue) :
    ∀ (acc : List (String × Val)) (k : String),
      dictGet (l.foldl applyIssue acc) k =
        match lastWrite k l with
        | some v => some v
        | none => dictGet acc k := by
  induction l with
  | nil => intro acc k; rfl
  | cons i is ih =>
    intro acc k
    show dictGet (is.foldl applyIssue (applyIssue acc i)) k = _
    rw [ih]
    cases hl : lastWrite k is with
    | some v => simp [lastWrite, hl]
    | none =>
      simp only [lastWrite, hl]
      unfold applyIssue issueWrites
      by_cases hs : i.severity = "critical" ∨ i.severity = "warning"
      · have hsb : (i.severity == "critical" || i.severity == "warning") = true := by
          rcases hs with h | h <;> simp [h]
        simp only [if_pos hs, hsb, Bool.true_and]
        cases hset : i.setting with
        | none => simp
        | some k0 =>
          cases hrec : i.recommended_value with
          | none =>
            by_cases hk : k0 = k <;> simp [hk]
          | some v =>
            by_cases hk : k0 = k
            · subst hk; simp [dictGet_dictSet]
            · have : ¬ k = k0 := fun he => hk he.symm
              simp [hk, dictGet_dictSet, this]
      · have hsb : (i.severity == "critical" || i.severity == "warning") = false := by
          simp only [not_or] at hs
          simp [hs.1, hs.2]
        simp [if_neg hs, hsb]

theorem lastWrite_append (k : String) (a b : List AIssue) :
    lastWrite k (a ++ b) =
      match lastWrite k b with
      | some v => some v
      | none => lastWrite k a := by
  induction a with
  | nil => cases hb : lastWrite k b <;> simp [lastWrite, hb]
  | cons i a ih =>
    show lastWrite k (i :: (a ++ b)) = _
    simp only [lastWrite, ih]
    cases hb : lastWrite k b <;> cases ha : lastWrite k a <;> simp

theorem lastWrite_edidIssues (k em : String) :
    lastWrite k (edidIssues em) =
      if em = "fixed" ∧ k = "edidmode" then some (.str "automix") else none := by
  unfold edidIssues
  by_cases h1 : em = "fixed"
  · subst h1
    by_cases hk : k = "edidmode"
    · subst hk; simp [lastWrite, issueWrites, mkIssue]
    · have : ¬ "edidmode" = k := fun he => hk he.symm
      simp [lastWrite, issueWrites, mkIssue, hk, this]
  · have hno : ¬ (em = "fixed" ∧ k = "edidmode") := fun hc => h1 hc.1
    simp only [if_neg h1, if_neg hno]
    split
    · simp [lastWrite, issueWrites, mkIssue]
    · rfl

theorem lastWrite_unmuteIssues (k : String) (ud eu : Int) :
    lastWrite k (unmuteIssues ud eu) =
      if k = "unmutedelay" ∧ ud > 500 then some (.int 250)
      else if k = "earcunmute" ∧ eu > 500 then some (.int 300)
      else none := by
  unfold unmuteIssues
  by_cases hk1 : k = "unmutedelay"
  · subst hk1
    by_cases h1 : ud > 500 <;> by_cases h2 : ud = 0 <;> by_cases h3 : eu > 500 <;>
      simp [h1, h2, h3, lastWrite_append, lastWrite, issueWrites, mkIssue]
  · by_cases hk2 : k = "earcunmute"
    · subst hk2
      by_cases h1 : ud > 500 <;> by_cases h2 : ud = 0 <;> by_cases h3 : eu > 500 <;>
        simp [h1, h2, h3, hk1, lastWrite_append, lastWrite, issueWrites, mkIssue]
    · have hu : ¬ "unmutedelay" = k := fun he => hk1 he.symm
      have he' : ¬ "earcunmute" = k := fun he => hk2 he.symm
      by_cases h1 : ud > 500 <;> by_cases h2 : ud = 0 <;> by_cases h3 : eu > 500 <;>
        simp [h1, h2, h3, hk1, hk2, hu, he', lastWrite_append, lastWrite, issueWrites, mkIssue]

theorem lastWrite_dvIssues (k dv : String) : lastWrite k (dvIssues dv) = none := by
  unfold dvIssues
  split
  · simp [lastWrite, issueWrites, mkIssue]
  · rfl

theorem lastWrite_hdrIssues (k hf : String) :
    lastWrite k (hdrIssues hf) =
      if hf = "off" ∧ k = "edidhdrflag" then some (.str "on") else none := by
  unfold hdrIssues
  by_cases h1 : hf = "off"
  · subst h1
    by_cases hk : k = "edidhdrflag"
    · subst hk; simp [lastWrite, issueWrites, mkIssue]
    · have : ¬ "edidhdrflag" = k := fun he => hk he.symm
      simp [lastWrite, issueWrites, mkIssue, hk, this]
  · have hno : ¬ (hf = "off" ∧ k = "edidhdrflag") := fun hc => h1 hc.1
    simp [h1, hno, lastWrite]

theorem lastWrite_hdcpIssues (k hm : String) : lastWrite k (hdcpIssues hm) = none := by
  unfold hdcpIssues
  split
  · simp [lastWrite, issueWrites, mkIssue]
  · rfl

/-- Lookup in `allIssues`-corrected state, all blocks combined. -/
theorem lastWrite_allIssues (k em : String) (ud eu : Int) (dv hf hm : String) :
    lastWrite k (allIssues em ud eu dv hf hm) =
      if em = "fixed" ∧ k = "edidmode" then some (.str "automix")
      else if k = "unmutedelay" ∧ ud > 500 then some (.int 250)
      else if k = "earcunmute" ∧ eu > 500 then some (.int 300)
      else if hf = "off" ∧ k = "edidhdrflag" then some (.str "on")
      else none := by
  unfold allIssues
  rw [lastWrite_append, lastWrite_append, lastWrite_append, lastWrite_append]
  rw [lastWrite_hdcpIssues, lastWrite_hdrIssues, lastWrite_dvIssues,
    lastWrite_unmuteIssues, lastWrite_edidIssues]
  by_cases hk1 : k = "edidmode"
  · subst hk1
    by_cases h1 : em = "fixed" <;> simp [h1]
  by_cases hk2 : k = "unmutedelay"
  · subst hk2
    by_cases h2 : ud > 500 <;> simp [h2]
  by_cases hk3 : k = "earcunmute"
  · subst hk3
    by_cases h3 : eu > 500 <;> simp [h3]
  by_cases hk4 : k = "edidhdrflag"
  · subst hk4
    by_cases h4 : hf = "off" <;> simp [h4]
  simp [hk1, hk2, hk3, hk4]

/-! ### The checks never write the config -/

theorem check_edid_mode_config (st st' : Analyzer) (h : check_edid_mode st = some st') :
    st'.config = st.config := by
  unfold check_edid_mode at h
  cases hg : config_get_lower st.config "edidmode" "" with
  | none => rw [hg] at h; simp at h
  | some em =>
    rw [hg] at h
    simp only [Option.map_some', Option.some.injEq] at h
    subst h
    split <;> (try split) <;> (try split) <;> rfl

theorem check_unmute_delays_config (st st' : Analyzer) (h : check_unmute_delays st = some st') :
    st'.config = st.config := by
  unfold check_unmute_delays at h
  simp only [Option.some.injEq] at h
  subst h
  split <;> (try split) <;> (try split) <;> rfl

theorem check_dv_settings_config (st st' : Analyzer) (h : check_dv_settings st = some st') :
    st'.config = st.config := by
  unfold check_dv_settings at h
  cases hg : config_get_lower st.config "ediddvflag" "off" with
  | none => rw [hg] at h; simp at h
  | some dv =>
    rw [hg] at h
    simp only [Option.map_some', Option.some.injEq] at h
    subst h
    split <;> (try split) <;> rfl

theorem check_hdr_settings_config (st st' : Analyzer) (h : check_hdr_settings st = some st') :
    st'.config = st.config := by
  unfold check_hdr_settings at h
  cases hg : config_get_lower st.config "edidhdrflag" "on" with
  | none => rw [hg] at h; simp at h
  | some hf =>
    rw [hg] at h
    simp only [Option.some_bind] at h
    cases hg2 : config_get_lower st.config "hdrcustom" "off" with
    | none => rw [hg2] at h; simp at h
    | some hc =>
      rw [hg2] at h
      simp only [Option.map_some', Option.some.injEq] at h
      subst h
      split <;> (try split) <;> rfl

theorem check_hdcp_settings_config (st st' : Analyzer) (h : check_hdcp_settings st = some st') :
    st'.config = st.config := by
  unfold check_hdcp_settings at h
  cases hg : config_get_lower st.config "hdcpmode" "auto" with
  | none => rw [hg] at h; simp at h
  | some hm =>
    rw [hg] at h
    simp only [Option.map_some', Option.some.injEq] at h
    subst h
    split <;> rfl

theorem check_cec_settings_config (st : Analyzer) :
    (check_cec_settings st).config = st.config := by
  unfold check_cec_settings
  split <;> (try split) <;> rfl

theorem check_audio_routing_config (st st' : Analyzer) (h : check_audio_routing st = some st') :
    st'.config = st.config := by
  unfold check_audio_routing at h
  cases hg : config_get_lower st.config "audioout" "" with
  | none => rw [hg] at h; simp at h
  | some ao =>
    rw [hg] at h
    simp only [Option.some_bind] at h
    cases hg2 : config_get_lower st.config "earcmode" "" with
    | none => rw [hg2] at h; simp at h
    | some em2 =>
      rw [hg2] at h
      simp only [Option.map_some', Option.some.injEq] at h
      subst h
      split <;> rfl

/-- C9: `AnalyzeSnapshot` never mutates its input: the analyzer's settings
snapshot after a full run of the checks is the one it started with, key
for key and value for value (and the corrected snapshot is built on a
deep copy, modelled as a value). -/
theorem c9_analyze_pure (st st' : Analyzer) (h : analyze_steps st = some st') :
    st'.config = st.config := by
  unfold analyze_steps at h
  obtain ⟨s1, hs1, h⟩ := Option.bind_eq_some.mp h
  obtain ⟨s2, hs2, h⟩ := Option.bind_eq_some.mp h
  obtain ⟨s3, hs3, h⟩ := Option.bind_eq_some.mp h
  obtain ⟨s4, hs4, h⟩ := Option.bind_eq_some.mp h
  obtain ⟨s5, hs5, h⟩ := Option.bind_eq_some.mp h
  have e6 : st'.config = (check_cec_settings s5).config := check_audio_routing_config _ _ h
  rw [e6, check_cec_settings_config, check_hdcp_settings_config _ _ hs5,
    check_hdr_settings_config _ _ hs4, check_dv_settings_config _ _ hs3,
    check_unmute_delays_config _ _ hs2, check_edid_mode_config _ _ hs1]

/-- C9 witness: the theorem applied to the C3 snapshot. -/
theorem c9_analyze_pure_witness :
    ((analyze_steps ⟨c3cfg, [], []⟩).getD ⟨[], [], []⟩).config = c3cfg :=
  c9_analyze_pure ⟨c3cfg, [], []⟩ _ (by rfl)

/-! ### A successful run means every `.lower()` succeeded -/

theorem check_edid_mode_success (st st' : Analyzer) (h : check_edid_mode st = some st') :
    ∃ em, config_get_lower st.config "edidmode" "" = some em := by
  unfold check_edid_mode at h
  cases hg : config_get_lower st.config "edidmode" "" with
  | none => rw [hg] at h; simp at h
  | some em => exact ⟨em, rfl⟩

theorem check_dv_settings_success (st st' : Analyzer) (h : check_dv_settings st = some st') :
    ∃ dv, config_get_lower st.config "ediddvflag" "off" = some dv := by
  unfold check_dv_settings at h
  cases hg : config_get_lower st.config "ediddvflag" "off" with
  | none => rw [hg] at h; simp at h
  | some dv => exact ⟨dv, rfl⟩

theorem check_hdr_settings_success (st st' : Analyzer) (h : check_hdr_settings st = some st') :
    ∃ hf hc, config_get_lower st.config "edidhdrflag" "on" = some hf ∧
      config_get_lower st.config "hdrcustom" "off" = some hc := by
  unfold check_hdr_settings at h
  cases hg : config_get_lower st.config "edidhdrflag" "on" with
  | none => rw [hg] at h; simp at h
  | some hf =>
    rw [hg] at h
    simp only [Option.some_bind] at h
    cases hg2 : config_get_lower st.config "hdrcustom" "off" with
    | none => rw [hg2] at h; simp at h
    | some hc => exact ⟨hf, hc, rfl, rfl⟩

theorem check_hdcp_settings_success (st st' : Analyzer) (h : check_hdcp_settings st = some st') :
    ∃ hm, config_get_lower st.config "hdcpmode" "auto" = some hm := by
  unfold check_hdcp_settings at h
  cases hg : config_get_lower st.config "hdcpmode" "auto" with
  | none => rw [hg] at h; simp at h
  | some hm => exact ⟨hm, rfl⟩

theorem check_audio_routing_success (st st' : Analyzer) (h : check_audio_routing st = some st') :
    ∃ ao em2, config_get_lower st.config "audioout" "" = some ao ∧
      config_get_lower st.config "earcmode" "" = some em2 := by
  unfold check_audio_routing at h
  cases hg : config_get_lower st.config "audioout" "" with
  | none => rw [hg] at h; simp at h
  | some ao =>
    rw [hg] at h
    simp only [Option.some_bind] at h
    cases hg2 : config_get_lower st.config "earcmode" "" with
    | none => rw [hg2] at h; simp at h
    | some em2 => exact ⟨ao, em2, rfl, rfl⟩

theorem analyze_steps_success (st st' : Analyzer) (h : analyze_steps st = some st') :
    ∃ em dv hf hc hm ao em2,
      config_get_lower st.config "edidmode" "" = some em ∧
      config_get_lower st.config "ediddvflag" "off" = some dv ∧
      config_get_lower st.config "edidhdrflag" "on" = some hf ∧
      config_get_lower st.config "hdrcustom" "off" = some hc ∧
      config_get_lower st.config "hdcpmode" "auto" = some hm ∧
      config_get_lower st.config "audioout" "" = some ao ∧
      config_get_lower st.config "earcmode" "" = some em2 := by
  unfold analyze_steps at h
  obtain ⟨s1, hs1, h⟩ := Option.bind_eq_some.mp h
  obtain ⟨s2, hs2, h⟩ := Option.bind_eq_some.mp h
  obtain ⟨s3, hs3, h⟩ := Option.bind_eq_some.mp h
  obtain ⟨s4, hs4, h⟩ := Option.bind_eq_some.mp h
  obtain ⟨s5, hs5, h⟩ := Option.bind_eq_some.mp h
  have e1 : s1.config = st.config := check_edid_mode_config _ _ hs1
  have e2 : s2.config = st.config := (check_unmute_delays_config _ _ hs2).trans e1
  have e3 : s3.config = st.config := (check_dv_settings_config _ _ hs3).trans e2
  have e4 : s4.config = st.config := (check_hdr_settings_config _ _ hs4).trans e3
  have e5 : s5.config = st.config := (check_hdcp_settings_config _ _ hs5).trans e4
  obtain ⟨em, hem⟩ := check_edid_mode_success _ _ hs1
  obtain ⟨dv, hdv⟩ := check_dv_settings_success _ _ hs3
  obtain ⟨hf, hc, hhf, hhc⟩ := check_hdr_settings_success _ _ hs4
  obtain ⟨hm, hhm⟩ := check_hdcp_settings_success _ _ hs5
  obtain ⟨ao, em2, hao, hem2⟩ := check_audio_routing_success _ _ h
  rw [e2] at hdv
  rw [e3] at hhf hhc
  rw [e4] at hhm
  rw [check_cec_settings_config, e5] at hao hem2
  exact ⟨em, dv, hf, hc, hm, ao, em2, hem, hdv, hhf, hhc, hhm, hao, hem2⟩

/-- Lookups in the corrected snapshot, bookkeeping keys excluded. -/
theorem dictGet_generate_optimized (issues : List AIssue) (cfg : List (String × Val))
    (now k : String) (hk1 : k ≠ "_optimized") (hk2 : k ≠ "_optimized_date")
    (hk3 : k ≠ "_optimized_by") :
    dictGet (generate_optimized issues cfg now) k =
      match lastWrite k issues with
      | some v => some v
      | none => dictGet cfg k := by
  unfold generate_optimized
  rw [dictGet_dictSet, dictGet_dictSet, dictGet_dictSet]
  simp only [if_neg hk1, if_neg hk2, if_neg hk3]
  exact dictGet_foldl_applyIssue issues cfg k

/-! ### After correction no check can fire critically -/

theorem mem_edidIssues_info (em : String) (i : AIssue) (hne : em ≠ "fixed")
    (h : i ∈ edidIssues em) : i.severity = "info" := by
  unfold edidIssues at h
  rw [if_neg hne] at h
  revert h
  split <;> intro h <;> simp at h
  subst h; rfl

theorem mem_unmuteIssues_info (ud eu : Int) (i : AIssue) (h1 : ¬ ud > 500) (h3 : ¬ eu > 500)
    (h : i ∈ unmuteIssues ud eu) : i.severity = "info" := by
  unfold unmuteIssues at h
  rw [if_neg h1, if_neg h3] at h
  rw [List.append_nil] at h
  revert h
  split <;> intro h <;> simp at h
  subst h; rfl

theorem mem_dvIssues_info (dv : String) (i : AIssue) (h : i ∈ dvIssues dv) :
    i.severity = "info" := by
  unfold dvIssues at h
  revert h
  split <;> intro h <;> simp at h
  subst h; rfl

theorem hdrIssues_empty (hf : String) (h : hf ≠ "off") : hdrIssues hf = [] := by
  unfold hdrIssues; rw [if_neg h]

theorem mem_hdcpIssues_info (hm : String) (i : AIssue) (h : i ∈ hdcpIssues hm) :
    i.severity = "info" := by
  unfold hdcpIssues at h
  revert h
  split <;> intro h <;> simp at h
  subst h; rfl

theorem allIssues_info (em : String) (ud eu : Int) (dv hf hm : String)
    (hem : em ≠ "fixed") (hud : ¬ ud > 500) (heu : ¬ eu > 500) (hhf : hf ≠ "off") :
    ∀ i ∈ allIssues em ud eu dv hf hm, i.severity = "info" := by
  intro i h
  unfold allIssues at h
  simp only [List.mem_append] at h
  rcases h with ((((h | h) | h) | h) | h)
  · exact mem_edidIssues_info _ _ hem h
  · exact mem_unmuteIssues_info _ _ _ hud heu h
  · exact mem_dvIssues_info _ _ h
  · rw [hdrIssues_empty _ hhf] at h; simp at h
  · exact mem_hdcpIssues_info _ _ h

/-- C2: the Config Rule Engine's correction is idempotent with respect to
critical/warning issues: re-analysing the corrected snapshot it produced
yields zero issues of severity critical and zero of severity warning. -/
theorem c2_correction_idempotent (cfg : List (String × Val)) (now now2 : String)
    (res : AnalyzeResult) (h : analyze_config cfg now = some res) :
    ∃ res2, analyze_config res.optimized now2 = some res2 ∧
      res2.critical_count = 0 ∧ res2.warning_count = 0 := by
  unfold analyze_config at h
  obtain ⟨st, hst, hres⟩ := Option.map_eq_some'.mp h
  obtain ⟨em, dv, hf, hc, hm, ao, em2, h1, h2, h3, h4, h5, h6, h7⟩ :=
    analyze_steps_success _ _ hst
  have hspec := analyze_steps_spec cfg [] [] em dv hf hc hm ao em2 h1 h2 h3 h4 h5 h6 h7
  rw [hst] at hspec
  have hstEq := Option.some.inj hspec
  subst hstEq
  have hOpt : res.optimized =
      generate_optimized (allIssues em (udOf cfg) (euOf cfg) dv hf hm) cfg now := by
    rw [← hres]
    simp
  set O := generate_optimized (allIssues em (udOf cfg) (euOf cfg) dv hf hm) cfg now with hOdef
  -- lookups in the corrected snapshot
  have lkE : dictGet O "edidmode" =
      if em = "fixed" then some (Val.str "automix") else dictGet cfg "edidmode" := by
    rw [hOdef, dictGet_generate_optimized _ _ _ _ (by decide) (by decide) (by decide),
      lastWrite_allIssues]
    by_cases hfx : em = "fixed" <;> simp [hfx]
  have lkU : dictGet O "unmutedelay" =
      if udOf cfg > 500 then some (Val.int 250) else dictGet cfg "unmutedelay" := by
    rw [hOdef, dictGet_generate_optimized _ _ _ _ (by decide) (by decide) (by decide),
      lastWrite_allIssues]
    by_cases hup : udOf cfg > 500 <;> simp [hup]
  have lkEu : dictGet O "earcunmute" =
      if euOf cfg > 500 then some (Val.int 300) else dictGet cfg "earcunmute" := by
    rw [hOdef, dictGet_generate_optimized _ _ _ _ (by decide) (by decide) (by decide),
      lastWrite_allIssues]
    by_cases hup : euOf cfg > 500 <;> simp [hup]
  have lkH : dictGet O "edidhdrflag" =
      if hf = "off" then some (Val.str "on") else dictGet cfg "edidhdrflag" := by
    rw [hOdef, dictGet_generate_optimized _ _ _ _ (by decide) (by decide) (by decide),
      lastWrite_allIssues]
    by_cases hfx : hf = "off" <;> simp [hfx]
  have lkDv : dictGet O "ediddvflag" = dictGet cfg "ediddvflag" := by
    rw [hOdef, dictGet_generate_optimized _ _ _ _ (by decide) (by decide) (by decide),
      lastWrite_allIssues]
    simp
  have lkHc : dictGet O "hdrcustom" = dictGet cfg "hdrcustom" := by
    rw [hOdef, dictGet_generate_optimized _ _ _ _ (by decide) (by decide) (by decide),
      lastWrite_allIssues]
    simp
  have lkHm : dictGet O "hdcpmode" = dictGet cfg "hdcpmode" := by
    rw [hOdef, dictGet_generate_optimized _ _ _ _ (by decide) (by decide) (by decide),
      lastWrite_allIssues]
    simp
  have lkAo : dictGet O "audioout" = dictGet cfg "audioout" := by
    rw [hOdef, dictGet_generate_optimized _ _ _ _ (by decide) (by decide) (by decide),
      lastWrite_allIssues]
    simp
  have lkEm : dictGet O "earcmode" = dictGet cfg "earcmode" := by
    rw [hOdef, dictGet_generate_optimized _ _ _ _ (by decide) (by decide) (by decide),
      lastWrite_allIssues]
    simp
  -- the second run's `.lower()` reads
  have hO1 : config_get_lower O "edidmode" "" = some (if em = "fixed" then "automix" else em) := by
    unfold config_get_lower
    rw [lkE]
    by_cases hfx : em = "fixed"
    · simp only [hfx, if_pos]
      decide
    · simp only [if_neg hfx]
      exact h1
  have hO2 : config_get_lower O "ediddvflag" "off" = some dv := by
    unfold config_get_lower; rw [lkDv]; exact h2
  have hO3 : config_get_lower O "edidhdrflag" "on" = some (if hf = "off" then "on" else hf) := by
    unfold config_get_lower
    rw [lkH]
    by_cases hfx : hf = "off"
    · simp only [hfx, if_pos]
      decide
    · simp only [if_neg hfx]
      exact h3
  have hO4 : config_get_lower O "hdrcustom" "off" = some hc := by
    unfold config_get_lower; rw [lkHc]; exact h4
  have hO5 : config_get_lower O "hdcpmode" "auto" = some hm := by
    unfold config_get_lower; rw [lkHm]; exact h5
  have hO6 : config_get_lower O "audioout" "" = some ao := by
    unfold config_get_lower; rw [lkAo]; exact h6
  have hO7 : config_get_lower O "earcmode" "" = some em2 := by
    unfold config_get_lower; rw [lkEm]; exact h7
  have hOud : ¬ udOf O > 500 := by
    unfold udOf dictGetD
    rw [lkU]
    by_cases hup : udOf cfg > 500
    · simp only [if_pos hup]
      decide
    · simp only [if_neg hup]
      exact hup
  have hOeu : ¬ euOf O > 500 := by
    unfold euOf dictGetD
    rw [lkEu]
    by_cases hup : euOf cfg > 500
    · simp only [if_pos hup]
      decide
    · simp only [if_neg hup]
      exact hup
  have hem' : (if em = "fixed" then "automix" else em) ≠ "fixed" := by
    split
    · decide
    · assumption
  have hhf' : (if hf = "off" then "on" else hf) ≠ "off" := by
    split
    · decide
    · assumption
  have hspec2 := analyze_steps_spec O [] [] (if em = "fixed" then "automix" else em) dv
    (if hf = "off" then "on" else hf) hc hm ao em2 hO1 hO2 hO3 hO4 hO5 hO6 hO7
  refine ⟨(analyze_config O now2).getD ⟨[], [], 0, 0, 0, []⟩, ?_, ?_, ?_⟩
  · rw [hOpt]
    unfold analyze_config
    rw [hspec2]
    rfl
  · unfold analyze_config
    rw [hspec2]
    simp only [Option.map_some', Option.getD_some, List.nil_append]
    rw [List.countP_eq_zero]
    intro i hi
    have := allIssues_info _ _ _ _ _ _ hem' hOud hOeu hhf' i hi
    simp [this]
  · unfold analyze_config
    rw [hspec2]
    simp only [Option.map_some', Option.getD_some, List.nil_append]
    rw [List.countP_eq_zero]
    intro i hi
    have := allIssues_info _ _ _ _ _ _ hem' hOud hOeu hhf' i hi
    simp [this]

/-- C2 witness: the theorem applied to the C3 snapshot. -/
theorem c2_correction_idempotent_witness :
    analyze_config c3cfg "t0" = some ((analyze_config c3cfg "t0").getD ⟨[], [], 0, 0, 0, []⟩) ∧
      ∃ res2, analyze_config ((analyze_config c3cfg "t0").getD ⟨[], [], 0, 0, 0, []⟩).optimized
          "t1" = some res2 ∧ res2.critical_count = 0 ∧ res2.warning_count = 0 :=
  ⟨by rfl, c2_correction_idempotent c3cfg "t0" "t1" _ (by rfl)⟩

/-! ## External command boundary (`vrroom_command`, src/app.py 5019-5055)

The endpoint's decision up to the point where a network connection would
be opened: `rejected` answers carry an HTTP 400 error and perform no I/O;
`sendToDevice` is the branch that constructs a `VrroomConnection`,
connects and sends the command. -/

inductive CmdOutcome where
  | rejected (error : String)
  | sendToDevice (command : String)
deriving DecidableEq

/-- `vrroom_command` (lines 5026-5043): strip the fields, reject empty ip
or command, then reject unless the lowercased command starts with
"get " or "set "; only then is a connection opened. -/
def vrroom_command (ip_address command : String) : CmdOutcome :=
  if pyStrip ip_address = "" then .rejected "IP address is required"
  else if pyStrip command = "" then .rejected "Command is required"
  else if listPrefixOf "get ".toList (pyLower (pyStrip command)).toList
      || listPrefixOf "set ".toList (pyLower (pyStrip command)).toList then
    .sendToDevice (pyStrip command)
  else .rejected "Only 'get' and 'set' commands are allowed"

/-- The command's verb: the first whitespace-delimited token of the
stripped, lowercased command ("" when there is none). -/
def cmdVerb (command : String) : String :=
  (pySplit (pyLower (pyStrip command))).headD ""

theorem listPrefixOf_exists (p : List Char) : ∀ l, listPrefixOf p l = true → ∃ t, l = p ++ t := by
  induction p with
  | nil => intro l _; exact ⟨l, rfl⟩
  | cons a as ih =>
    intro l h
    cases l with
    | nil => simp [listPrefixOf] at h
    | cons b bs =>
      unfold listPrefixOf at h
      simp only [Bool.and_eq_true, decide_eq_true_eq] at h
      obtain ⟨rfl, h2⟩ := h
      obtain ⟨t, rfl⟩ := ih bs h2
      exact ⟨t, rfl⟩

theorem pySplitAux_get (rest : List Char) :
    pySplitAux ('g' :: 'e' :: 't' :: ' ' :: rest) [] = "get" :: pySplitAux rest [] := rfl

theorem pySplitAux_set (rest : List Char) :
    pySplitAux ('s' :: 'e' :: 't' :: ' ' :: rest) [] = "set" :: pySplitAux rest [] := rfl

theorem cmdVerb_of_get (s : String)
    (h : listPrefixOf "get ".toList (pyLower (pyStrip s)).toList = true) : cmdVerb s = "get" := by
  obtain ⟨t, ht⟩ := listPrefixOf_exists _ _ h
  unfold cmdVerb pySplit
  rw [ht]
  rw [show ("get ".toList ++ t) = 'g' :: 'e' :: 't' :: ' ' :: t from rfl, pySplitAux_get]
  rfl

theorem cmdVerb_of_set (s : String)
    (h : listPrefixOf "set ".toList (pyLower (pyStrip s)).toList = true) : cmdVerb s = "set" := by
  obtain ⟨t, ht⟩ := listPrefixOf_exists _ _ h
  unfold cmdVerb pySplit
  rw [ht]
  rw [show ("set ".toList ++ t) = 's' :: 'e' :: 't' :: ' ' :: t from rfl, pySplitAux_set]
  rfl

/-- C4: a command whose verb is not `get` or `set` is rejected with an
error before any network I/O (the outcome is `rejected`, the branch that
never constructs a connection). -/
theorem c4_only_get_set (ip_address command : String)
    (h1 : cmdVerb command ≠ "get") (h2 : cmdVerb command ≠ "set") :
    ∃ e, vrroom_command ip_address command = .rejected e := by
  unfold vrroom_command
  by_cases hip : pyStrip ip_address = ""
  · rw [if_pos hip]; exact ⟨_, rfl⟩
  rw [if_neg hip]
  by_cases hcmd : pyStrip command = ""
  · rw [if_pos hcmd]; exact ⟨_, rfl⟩
  rw [if_neg hcmd]
  cases hg : listPrefixOf "get ".toList (pyLower (pyStrip command)).toList with
  | true => exact absurd (cmdVerb_of_get _ hg) h1
  | false =>
    cases hs : listPrefixOf "set ".toList (pyLower (pyStrip command)).toList with
    | true => exact absurd (cmdVerb_of_set _ hs) h2
    | false => simp [hg, hs]

/-- C4 witness: "reboot now" (verb "reboot") is rejected. -/
theorem c4_only_get_set_witness :
    ∃ e, vrroom_command "10.0.0.2" "reboot now" = .rejected e :=
  c4_only_get_set "10.0.0.2" "reboot now" (by decide) (by decide)

/-! ## Settings fetch (`VrroomConnection.get_all_settings` / `fetch_config`,
src/app.py 297-346)

Socket traffic is an oracle `send : String → Option String`: `send cmd`
is the stripped response text of `send_command(cmd)`, `none` a raised
transport exception. -/

def SETTINGS_TO_QUERY : List String :=
  ["opmode", "insel", "dhcp", "ipaddr", "autosw",
   "edidmode", "edidfrlflag", "edidfrlmode", "edidvrrflag", "edidallmflag",
   "edidhdrflag", "edidhdrmode", "ediddvflag", "ediddvmode",
   "edidtruehdflag", "edidtruehdmode", "edidddflag", "edidddplusflag",
   "ediddtsflag", "ediddtshdflag", "edidpcmflag", "edidpcmchmode",
   "hdcp", "hdrcustom", "hdrdisable", "cec",
   "earcforce", "jvcmacro", "oled", "oledfade"]

def STATUS_QUERIES : List String := ["rx0", "tx0", "tx1", "tx0sink", "tx1sink", "aud0", "audout"]

/-- Value extraction of `get_setting` (lines 288-295): the last
whitespace-delimited token when the response has at least two, else the
whole response. -/
def extract_value (response : String) : String :=
  let parts := pySplit response
  if parts.length ≥ 2 then (parts.getLast?).getD response else response

/-- `VrroomConnection.get_setting`: issue `get <setting>` and extract. -/
def get_setting (send : String → Option String) (setting : String) : Option String :=
  (send ("get " ++ setting)).map extract_value

/-- One iteration of the `get_all_settings` loop (lines 301-307): a raised
exception (`none`) or a sentinel/empty value skips the setting. -/
def gasStep (send : String → Option String) (acc : List (String × String))
    (setting : String) : List (String × String) :=
  match get_setting send setting with
  | none => acc
  | some value =>
    if value ≠ "" ∧ ¬ ["error", "unknown"].contains (pyLower value) then dictSet acc setting value
    else acc

/-- `VrroomConnection.get_all_settings` (lines 297-309). -/
def get_all_settings (send : String → Option String) : List (String × String) :=
  SETTINGS_TO_QUERY.foldl (gasStep send) []

/-- `VrroomConnection.get_status` (lines 311-323). -/
def get_status (send : String → Option String) : List (String × String) :=
  STATUS_QUERIES.foldl (fun acc query =>
    match send ("get status " ++ query) with
    | none => acc
    | some response => if response ≠ "" then dictSet acc query response else acc) []

structure FetchResult where
  success : Bool
  settings : List (String × String)
  status : List (String × String)
deriving DecidableEq

/-- `VrroomConnection.fetch_config` (lines 325-346): only a connection
establishment failure makes the call fail; the per-setting loops cannot
raise. -/
def fetch_config (connectOk : Bool) (send : String → Option String) : FetchResult :=
  if connectOk then
    { success := true, settings := get_all_settings send, status := get_status send }
  else { success := false, settings := [], status := [] }

/-- The value `get_all_settings` keeps for a key, `none` when the query
raised or the value was filtered out. -/
def keptSetting (send : String → Option String) (k : String) : Option String :=
  match get_setting send k with
  | none => none
  | some v => if v ≠ "" ∧ ¬ ["error", "unknown"].contains (pyLower v) then some v else none

theorem gasStep_none (send : String → Option String) (acc : List (String × String))
    (s : String) (h : get_setting send s = none) : gasStep send acc s = acc := by
  unfold gasStep; rw [h]

theorem gasStep_some (send : String → Option String) (acc : List (String × String))
    (s v : String) (h : get_setting send s = some v) :
    gasStep send acc s =
      if v ≠ "" ∧ ¬ ["error", "unknown"].contains (pyLower v) then dictSet acc s v
      else acc := by
  unfold gasStep; rw [h]

theorem keptSetting_none (send : String → Option String) (s : String)
    (h : get_setting send s = none) : keptSetting send s = none := by
  unfold keptSetting; rw [h]

theorem keptSetting_some (send : String → Option String) (s v : String)
    (h : get_setting send s = some v) :
    keptSetting send s =
      if v ≠ "" ∧ ¬ ["error", "unknown"].contains (pyLower v) then some v else none := by
  unfold keptSetting; rw [h]

theorem dictGet_gasStep_other (send : String → Option String) (acc : List (String × String))
    (s k : String) (h : ¬ s = k) : dictGet (gasStep send acc s) k = dictGet acc k := by
  cases hm : get_setting send s with
  | none => rw [gasStep_none send acc s hm]
  | some v =>
    rw [gasStep_some send acc s v hm]
    split
    · rw [dictGet_dictSet, if_neg (fun he : k = s => h he.symm)]
    · rfl

theorem gasFold_lookup (send : String → Option String) :
    ∀ (ks : List String) (acc : List (String × String)) (k : String), ks.Nodup →
      dictGet (ks.foldl (gasStep send) acc) k =
        if k ∈ ks then
          match keptSetting send k with
          | some v => some v
          | none => dictGet acc k
        else dictGet acc k := by
  intro ks
  induction ks with
  | nil => intro acc k _; simp
  | cons s t ih =>
    intro acc k hnd
    show dictGet (t.foldl (gasStep send) (gasStep send acc s)) k = _
    rw [ih _ _ (List.nodup_cons.mp hnd).2]
    by_cases hk : k = s
    · subst hk
      have hnt : k ∉ t := (List.nodup_cons.mp hnd).1
      simp only [if_neg hnt, List.mem_cons, true_or, if_pos]
      cases hm : get_setting send k with
      | none => rw [gasStep_none send acc k hm, keptSetting_none send k hm]
      | some v =>
        rw [gasStep_some send acc k v hm, keptSetting_some send k v hm]
        split
        · rw [dictGet_dictSet]; simp
        · rfl
    · rw [dictGet_gasStep_other send acc s k (fun he => hk he.symm)]
      by_cases hmem : k ∈ t <;> simp [hmem, hk]

theorem gasFold_length (send : String → Option String) :
    ∀ (ks : List String) (acc : List (String × String)), ks.Nodup →
      (∀ k ∈ ks, dictGet acc k = none) →
      (ks.foldl (gasStep send) acc).length =
        acc.length + ks.countP (fun k => (keptSetting send k).isSome) := by
  intro ks
  induction ks with
  | nil => intro acc _ _; simp
  | cons s t ih =>
    intro acc hnd hdisj
    show (t.foldl (gasStep send) (gasStep send acc s)).length = _
    have hlen : (gasStep send acc s).length =
        acc.length + (if (keptSetting send s).isSome then 1 else 0) := by
      cases hm : get_setting send s with
      | none => rw [gasStep_none send acc s hm, keptSetting_none send s hm]; simp
      | some v =>
        rw [gasStep_some send acc s v hm, keptSetting_some send s v hm]
        split
        · rw [length_dictSet_of_not_mem _ _ _ (hdisj s (by simp))]
          simp
        · simp
    have hdisj' : ∀ k ∈ t, dictGet (gasStep send acc s) k = none := by
      intro k hk
      have hne : ¬ s = k := fun he => (List.nodup_cons.mp hnd).1 (he ▸ hk)
      rw [dictGet_gasStep_other send acc s k hne]
      exact hdisj k (List.mem_cons_of_mem _ hk)
    rw [ih _ (List.nodup_cons.mp hnd).2 hdisj', hlen]
    by_cases hkept : (keptSetting send s).isSome <;>
      simp [hkept, List.countP_cons] <;> omega

/-- C5: when every individual setting query either raises (is skipped) or
returns a non-sentinel value, `get_all_settings` returns exactly the
successful entries — its map holds key `k` with value `v` iff the query
for `k` succeeded with extracted value `v`, and its size is the number of
successful queries — and the enclosing `fetch_config` reports success
whenever the connection was established. -/
theorem c5_partial_results (send : String → Option String)
    (hsend : ∀ k ∈ SETTINGS_TO_QUERY, (send ("get " ++ k)).all
      (fun r => extract_value r ≠ "" &&
        !(["error", "unknown"].contains (pyLower (extract_value r)))) = true) :
    (∀ k v, dictGet (get_all_settings send) k = some v ↔
      (k ∈ SETTINGS_TO_QUERY ∧ ∃ r, send ("get " ++ k) = some r ∧ extract_value r = v)) ∧
    (get_all_settings send).length =
      SETTINGS_TO_QUERY.countP (fun k => (send ("get " ++ k)).isSome) ∧
    (fetch_config true send).success = true := by
  have hkept : ∀ k ∈ SETTINGS_TO_QUERY,
      keptSetting send k = (send ("get " ++ k)).map extract_value := by
    intro k hk
    cases hm : send ("get " ++ k) with
    | none =>
      rw [keptSetting_none send k (by unfold get_setting; rw [hm]; rfl)]
      rfl
    | some r =>
      have hcond := hsend k hk
      rw [hm] at hcond
      simp only [Option.all_some, Bool.and_eq_true] at hcond
      rw [keptSetting_some send k (extract_value r)
        (by unfold get_setting; rw [hm]; rfl)]
      simp only [Option.map_some']
      rw [if_pos]
      constructor
      · simpa using hcond.1
      · simpa using hcond.2
  refine ⟨?_, ?_, rfl⟩
  · intro k v
    unfold get_all_settings
    rw [gasFold_lookup send SETTINGS_TO_QUERY [] k (by decide)]
    by_cases hk : k ∈ SETTINGS_TO_QUERY
    · rw [if_pos hk, hkept k hk]
      cases hm : send ("get " ++ k) with
      | none => simp [hk, dictGet]
      | some r => simp [hk]
    · rw [if_neg hk]
      simp [hk, dictGet]
  · unfold get_all_settings
    rw [gasFold_length send SETTINGS_TO_QUERY [] (by decide) (fun k _ => rfl)]
    simp only [List.length_nil, Nat.zero_add]
    apply List.countP_congr
    intro k hk
    rw [hkept k hk]
    cases send ("get " ++ k) <;> rfl

/-- A transport oracle for the C5 witness: three of the thirty setting
queries raise, the rest answer "resp ok1" (extracted value "ok1"). -/
def c5send : String → Option String := fun c =>
  if c = "get dhcp" ∨ c = "get cec" ∨ c = "get oled" then none else some "resp ok1"

/-- C5 witness: the theorem applied to `c5send`; 27 of the 30 queries
succeed and the map has exactly 27 entries. -/
theorem c5_partial_results_witness :
    (get_all_settings c5send).length =
      SETTINGS_TO_QUERY.countP (fun k => (c5send ("get " ++ k)).isSome) ∧
      (fetch_config true c5send).success = true ∧
      SETTINGS_TO_QUERY.countP (fun k => (c5send ("get " ++ k)).isSome) = 27 :=
  ⟨(c5_partial_results c5send (by decide)).2.1,
   (c5_partial_results c5send (by decide)).2.2, by decide⟩

/-! ## Recommendation Synthesis Engine (`SetupRecommendationEngine.generate`,
src/app.py 3515-3623)

A goal handler's output (`result` at line 3526) carries a recommendation
list, a partial vrroom-settings patch and per-source device-setting
suggestions.  Equipment only influences what the handlers return, so the
merge/dedup core is parameterised by the bodies of the seven `_goal_*`
methods (already applied to the engine's equipment state). -/

/-- A recommendation dict emitted by goal handlers, the baseline
equipment rules and the AVR/display passes. -/
structure SRec where
  severity : String
  title : String
  description : String
deriving DecidableEq

/-- A per-source device-setting suggestion dict; `device` is optional
because generate reads it with `s.get("device", "")`. -/
structure SourceSetting where
  setting : String
  value : String
  device : Option String
  reason : String
  path : String
deriving DecidableEq

/-- What one goal handler returns (line 3526-3529). -/
structure HandlerResult where
  recommendations : List SRec
  vrroom_settings : List (String × Val)
  source_settings : List SourceSetting
deriving DecidableEq

/-- Python `dict.update`: later pairs overwrite in place, new keys are
appended. -/
def pyDictUpdate (d : List (String × Val)) (new : List (String × Val)) : List (String × Val) :=
  new.foldl (fun acc kv => dictSet acc kv.1 kv.2) d

/-- The goal-handler names defined on `SetupRecommendationEngine`: the
`getattr(self, f"_goal_{goal_id}", None)` lookup succeeds exactly for
these seven identifiers (lines 4012-4366). -/
def knownGoals : List String :=
  ["avoid_bonk", "lldv_non_dv", "best_audio", "gaming_low_latency",
   "fix_preroll", "hdr_passthrough", "minimize_format_switch"]

/-- The `getattr` dispatch (line 3524): `h` gives each existing handler's
output; an unknown goal id finds no `_goal_...` attribute and yields
`none`. -/
def lookupHandler (h : String → HandlerResult) (goal_id : String) : Option HandlerResult :=
  if knownGoals.contains goal_id then some (h goal_id) else none

/-- One iteration of the goal loop of `generate` (lines 3523-3529):
unknown goals are skipped (`if handler:`), known ones extend the three
accumulators. -/
def goalStep (h : String → HandlerResult)
    (acc : List SRec × List (String × Val) × List SourceSetting) (g : String) :
    List SRec × List (String × Val) × List SourceSetting :=
  match lookupHandler h g with
  | some r => (acc.1 ++ r.recommendations, pyDictUpdate acc.2.1 r.vrroom_settings,
      acc.2.2 ++ r.source_settings)
  | none => acc

def goalLoop (h : String → HandlerResult) (goals : List String) :
    List SRec × List (String × Val) × List SourceSetting :=
  goals.foldl (goalStep h) ([], [], [])

/-- The recommendation-deduplication loop (lines 3548-3554): first
occurrence of each title wins, order is preserved (`seen` is the Python
set, a list here). -/
def dedupRecsAux (seen : List String) : List SRec → List SRec
  | [] => []
  | r :: rest =>
    if r.title ∈ seen then dedupRecsAux seen rest
    else r :: dedupRecsAux (r.title :: seen) rest

def dedupRecs (l : List SRec) : List SRec := dedupRecsAux [] l

/-- The key of the source-setting deduplication loop (line 3559):
`(s["setting"], s.get("device", ""))`. -/
def srcKey (s : SourceSetting) : String × String := (s.setting, s.device.getD "")

/-- The source-setting deduplication loop (lines 3556-3562). -/
def dedupSrcAux (seen : List (String × String)) : List SourceSetting → List SourceSetting
  | [] => []
  | s :: rest =>
    if srcKey s ∈ seen then dedupSrcAux seen rest
    else s :: dedupSrcAux (srcKey s :: seen) rest

def dedupSrc (l : List SourceSetting) : List SourceSetting := dedupSrcAux [] l

/-- The deduplicated outputs of `generate` (the fields
`recommendations`, `vrroom_settings` and `source_settings` of the dict
returned at lines 3605-3623). -/
structure GenerateOut where
  recommendations : List SRec
  vrroom_settings : List (String × Val)
  source_settings : List SourceSetting
deriving DecidableEq

/-- The merge-and-dedup core of `SetupRecommendationEngine.generate`
(lines 3515-3562): run the goal handlers, add the equipment-driven
baseline (`_general_equipment_recs`), append the AVR and display rule
passes' recommendations, then deduplicate. -/
def generateCore (h : String → HandlerResult) (goals : List String)
    (general : HandlerResult) (avrRecs displayRecs : List SRec) : GenerateOut :=
  let acc := goalLoop h goals
  let recommendations := acc.1 ++ general.recommendations ++ avrRecs ++ displayRecs
  let vrroom_settings := pyDictUpdate acc.2.1 general.vrroom_settings
  let source_settings := acc.2.2 ++ general.source_settings
  { recommendations := dedupRecs recommendations
    vrroom_settings := vrroom_settings
    source_settings := dedupSrc source_settings }

/-! ### Deduplication keeps exactly the first occurrence per key -/

theorem dedupRecsAux_filter (l : List SRec) :
    ∀ (seen : List String) (t : String),
      (dedupRecsAux seen l).filter (fun r => r.title == t) =
        if t ∈ seen then [] else ((l.find? (fun r => r.title == t)).toList) := by
  induction l with
  | nil =>
    intro seen t
    simp only [dedupRecsAux, List.filter_nil, List.find?_nil]
    split <;> rfl
  | cons r rest ih =>
    intro seen t
    by_cases hs : r.title ∈ seen
    · simp only [dedupRecsAux, if_pos hs]
      rw [ih]
      by_cases ht : t ∈ seen
      · simp [ht]
      · have hne : ¬ r.title = t := fun he => ht (he ▸ hs)
        rw [if_neg ht, if_neg ht, List.find?_cons_of_neg _ (by simp [hne])]
    · simp only [dedupRecsAux, if_neg hs]
      by_cases ht : t = r.title
      · subst ht
        rw [List.filter_cons_of_pos (by simp), ih]
        rw [if_pos (by simp : r.title ∈ r.title :: seen)]
        rw [if_neg hs, List.find?_cons_of_pos _ (by simp)]
        rfl
      · rw [List.filter_cons_of_neg (by simp; exact fun he => ht he.symm), ih]
        have hmem : (t ∈ r.title :: seen) ↔ t ∈ seen := by simp [ht]
        by_cases hts : t ∈ seen
        · simp [hts, hmem]
        · rw [if_neg (fun hc => hts (hmem.mp hc)), if_neg hts,
            List.find?_cons_of_neg _ (by simp; exact fun he => ht he.symm)]

theorem dedupRecsAux_sublist (l : List SRec) :
    ∀ seen : List String, (dedupRecsAux seen l).Sublist l := by
  induction l with
  | nil => intro seen; simp [dedupRecsAux]
  | cons r rest ih =>
    intro seen
    simp only [dedupRecsAux]
    split
    · exact (ih seen).cons r
    · exact (ih (r.title :: seen)).cons₂ r

theorem dedupSrcAux_filter (l : List SourceSetting) :
    ∀ (seen : List (String × String)) (p : String × String),
      (dedupSrcAux seen l).filter (fun s => srcKey s == p) =
        if p ∈ seen then [] else ((l.find? (fun s => srcKey s == p)).toList) := by
  induction l with
  | nil =>
    intro seen p
    simp only [dedupSrcAux, List.filter_nil, List.find?_nil]
    split <;> rfl
  | cons s rest ih =>
    intro seen p
    by_cases hs : srcKey s ∈ seen
    · simp only [dedupSrcAux, if_pos hs]
      rw [ih]
      by_cases hp : p ∈ seen
      · simp [hp]
      · have hne : ¬ srcKey s = p := fun he => hp (he ▸ hs)
        rw [if_neg hp, if_neg hp, List.find?_cons_of_neg _ (by simp [hne])]
    · simp only [dedupSrcAux, if_neg hs]
      by_cases hp : p = srcKey s
      · subst hp
        rw [List.filter_cons_of_pos (by simp), ih]
        rw [if_pos (by simp : srcKey s ∈ srcKey s :: seen)]
        rw [if_neg hs, List.find?_cons_of_pos _ (by simp)]
        rfl
      · rw [List.filter_cons_of_neg (by simp; exact fun he => hp he.symm), ih]
        have hmem : (p ∈ srcKey s :: seen) ↔ p ∈ seen := by simp [hp]
        by_cases hps : p ∈ seen
        · simp [hps, hmem]
        · rw [if_neg (fun hc => hps (hmem.mp hc)), if_neg hps,
            List.find?_cons_of_neg _ (by simp; exact fun he => hp he.symm)]

theorem dedupSrcAux_sublist (l : List SourceSetting) :
    ∀ seen : List (String × String), (dedupSrcAux seen l).Sublist l := by
  induction l with
  | nil => intro seen; simp [dedupSrcAux]
  | cons s rest ih =>
    intro seen
    simp only [dedupSrcAux]
    split
    · exact (ih seen).cons s
    · exact (ih (srcKey s :: seen)).cons₂ s

/-- C7: `generate` deduplicates recommendations by exact title equality
and device-setting suggestions by the (setting name, device name) pair;
for every title the output holds exactly the first pre-dedup occurrence
(so two goal handlers emitting the same title leave exactly one instance,
the first handler's), and both outputs are sublists of the pre-dedup
lists, preserving first-occurrence order. -/
theorem c7_generate_dedup (h : String → HandlerResult) (goals : List String)
    (general : HandlerResult) (avrRecs displayRecs : List SRec) :
    (∀ t, (generateCore h goals general avrRecs displayRecs).recommendations.filter
        (fun r => r.title == t) =
      (((goalLoop h goals).1 ++ general.recommendations ++ avrRecs ++ displayRecs).find?
        (fun r => r.title == t)).toList)
    ∧ (generateCore h goals general avrRecs displayRecs).recommendations.Sublist
        ((goalLoop h goals).1 ++ general.recommendations ++ avrRecs ++ displayRecs)
    ∧ (∀ p, (generateCore h goals general avrRecs displayRecs).source_settings.filter
        (fun s => srcKey s == p) =
      (((goalLoop h goals).2.2 ++ general.source_settings).find?
        (fun s => srcKey s == p)).toList)
    ∧ (generateCore h goals general avrRecs displayRecs).source_settings.Sublist
        ((goalLoop h goals).2.2 ++ general.source_settings) := by
  refine ⟨fun t => ?_, ?_, fun p => ?_, ?_⟩
  · show (dedupRecs _).filter _ = _
    unfold dedupRecs
    rw [dedupRecsAux_filter]
    simp
  · show (dedupRecs _).Sublist _
    exact dedupRecsAux_sublist _ []
  · show (dedupSrc _).filter _ = _
    unfold dedupSrc
    rw [dedupSrcAux_filter]
    simp
  · show (dedupSrc _).Sublist _
    exact dedupSrcAux_sublist _ []

/-! ### Unknown goals contribute nothing -/

theorem goalStep_unknown (h : String → HandlerResult)
    (acc : List SRec × List (String × Val) × List SourceSetting) (g : String)
    (hg : knownGoals.contains g = false) : goalStep h acc g = acc := by
  have hg' : g ∉ knownGoals := by simpa using hg
  simp [goalStep, lookupHandler, hg']

theorem goalLoop_filter_foldl (h : String → HandlerResult) (goals : List String) :
    ∀ acc, goals.foldl (goalStep h) acc =
      (goals.filter (fun g => knownGoals.contains g)).foldl (goalStep h) acc := by
  induction goals with
  | nil => intro acc; rfl
  | cons g gs ih =>
    intro acc
    cases hg : knownGoals.contains g with
    | true => simp only [List.foldl_cons, List.filter_cons, hg, if_pos]; exact ih _
    | false =>
      simp only [List.foldl_cons, List.filter_cons, hg, goalStep_unknown h acc g hg]
      exact ih acc

/-- C10: `generate` silently skips goal identifiers with no matching
`_goal_...` handler: it is total (no lookup error), and its output equals
the output on the goal list with unknown identifiers removed — unknown
goals contribute no recommendations, no settings-patch entries and no
device-setting suggestions. -/
theorem c10_unknown_goals_skipped (h : String → HandlerResult) (goals : List String)
    (general : HandlerResult) (avrRecs displayRecs : List SRec) :
    generateCore h goals general avrRecs displayRecs =
      generateCore h (goals.filter (fun g => knownGoals.contains g)) general avrRecs
        displayRecs := by
  unfold generateCore goalLoop
  rw [goalLoop_filter_foldl]

/-! ## Chain diagnosis (`VrroomConnection.diagnose_hdr_signal_chain`,
src/app.py 433-561, and `_analyze_hdr_chain`, 662-746) -/

/-- `_parse_spd_status` (lines 624-636): `vendor`/`product` are never
filled in. -/
structure SpdInfo where
  vendor : Option String := none
  product : Option String := none
  hdr_metadata : Option String := none
deriving DecidableEq

def parse_spd_status (response : String) : SpdInfo :=
  let info : SpdInfo := {}
  let info := if containsSub "HDR" (pyUpper response) then
      { info with hdr_metadata := some "HDR metadata present" } else info
  if containsSub "DV" (pyUpper response) || containsSub "DOLBY" (pyUpper response) then
    { info with hdr_metadata := some "Dolby Vision metadata" } else info

/-- `_parse_sink_capabilities` (lines 638-660). -/
structure SinkCaps where
  hdr_capable : Bool := false
  dv_capable : Bool := false
  vrr_capable : Bool := false
  max_resolution : Option String := none
  supported_formats : List String := []
deriving DecidableEq

def parse_sink_capabilities (response : String) : SinkCaps :=
  let up := pyUpper response
  let caps : SinkCaps := {}
  let caps := if containsSub "HDR" up then
      { caps with hdr_capable := true, supported_formats := caps.supported_formats ++ ["HDR10"] }
    else caps
  let caps := if containsSub "HLG" up then
      { caps with supported_formats := caps.supported_formats ++ ["HLG"] } else caps
  let caps := if containsSub "DV" up || containsSub "DOLBY" up then
      { caps with dv_capable := true, supported_formats := caps.supported_formats ++ ["Dolby Vision"] }
    else caps
  if containsSub "VRR" up then { caps with vrr_capable := true } else caps

/-- One entry of `diagnosis["signal_chain"]`; dict keys a branch does not
set are `none`/`false`.  `error := true` models the `"error": str(e)` key
of a failed stage. -/
structure ChainEntry where
  stage : String
  ctype : String
  connected : Option Bool := none
  raw : Option String := none
  signal : Option SignalInfo := none
  spd : Option SpdInfo := none
  caps : Option SinkCaps := none
  error : Bool := false
deriving DecidableEq

/-- `diagnosis["hdr_status"]["input"]`. -/
structure HdrPoint where
  detected : Bool := false
  format : String := "SDR"
  details : Option SignalInfo := none
deriving DecidableEq

structure DIssue where
  severity : String
  title : String
  description : String
deriving DecidableEq

/-- A recommendation appended by `_analyze_hdr_chain`. -/
structure DRec where
  priority : String
  setting : String
  current : String
  recommended : String
  title : String
  description : String
  command : String
  menu_path : String
deriving DecidableEq

structure Diagnosis where
  signal_chain : List ChainEntry
  input_hdr : HdrPoint
  lldv_active : Bool := false
  hdr_inject : Bool := false
  output_format : String := "SDR"
  output_details : Option SignalInfo := none
  settings : List (String × String)
  issues : List DIssue
  recommendations : List DRec
deriving DecidableEq

/-- Step 1 of the diagnosis (lines 455-483): one input port.  A raised
query (`none`) records an error stage; a response containing "no signal"
(or empty) records a disconnected stage; otherwise the parsed signal is
recorded and a non-SDR HDR format updates the chain's input HDR point. -/
def inputStep (send : String → Option String) (acc : List ChainEntry × HdrPoint)
    (rx : String) : List ChainEntry × HdrPoint :=
  match send ("get status " ++ rx) with
  | none => (acc.1 ++ [{ stage := "Input " ++ pyUpper rx, ctype := "input", error := true }], acc.2)
  | some response =>
    if response ≠ "" ∧ containsSub "no signal" (pyLower response) = false then
      let signal_info := parse_signal_status response
      let hdr := if signal_info.hdr_format ≠ "SDR" then
          { detected := true, format := signal_info.hdr_format, details := some signal_info }
        else acc.2
      (acc.1 ++ [{ stage := "Input " ++ pyUpper rx, ctype := "input", connected := some true,
                   raw := some response, signal := some signal_info }], hdr)
    else
      (acc.1 ++ [{ stage := "Input " ++ pyUpper rx, ctype := "input", connected := some false,
                   raw := some response }], acc.2)

def processInputs (send : String → Option String) : List ChainEntry × HdrPoint :=
  ["rx0", "rx1"].foldl (inputStep send) ([], {})

def lastCharStr (s : String) : String :=
  match s.toList.getLast? with
  | some c => String.mk [c]
  | none => ""

/-- Step 2 (lines 486-497): SPD metadata ports; exceptions and empty
responses are skipped. -/
def spdStep (send : String → Option String) (acc : List ChainEntry) (spd : String) :
    List ChainEntry :=
  match send ("get status " ++ spd) with
  | none => acc
  | some response =>
    if response ≠ "" then
      acc ++ [{ stage := "SPD " ++ lastCharStr spd, ctype := "metadata", raw := some response,
                spd := some (parse_spd_status response) }]
    else acc

def processSpds (send : String → Option String) : List ChainEntry :=
  ["spd0", "spd1"].foldl (spdStep send) []

/-- Step 3 (lines 500-519): output ports; a non-SDR parsed format updates
the chain's output format. -/
def outputStep (send : String → Option String)
    (acc : List ChainEntry × String × Option SignalInfo) (tx : String) :
    List ChainEntry × String × Option SignalInfo :=
  match send ("get status " ++ tx) with
  | none => (acc.1 ++ [{ stage := "Output " ++ pyUpper tx, ctype := "output", error := true }], acc.2)
  | some response =>
    if response ≠ "" then
      let signal_info := parse_signal_status response
      let out := if signal_info.hdr_format ≠ "SDR" then (signal_info.hdr_format, some signal_info)
        else acc.2
      (acc.1 ++ [{ stage := "Output " ++ pyUpper tx, ctype := "output", raw := some response,
                   signal := some signal_info }], out)
    else acc

def processOutputs (send : String → Option String) :
    List ChainEntry × String × Option SignalInfo :=
  ["tx0", "tx1"].foldl (outputStep send) ([], "SDR", none)

/-- The stage name `f"Sink {sink[-5:-4].upper()}{sink[-4:]}"` for the
sink names used (length at least five). -/
def sinkStageName (sink : String) : String :=
  let chars := sink.toList
  let n := chars.length
  "Sink " ++ pyUpper (String.mk ((chars.drop (n - 5)).take 1)) ++ String.mk (chars.drop (n - 4))

/-- Step 4 (lines 522-533): sink-capability ports. -/
def sinkStep (send : String → Option String) (acc : List ChainEntry) (sink : String) :
    List ChainEntry :=
  match send ("get status " ++ sink) with
  | none => acc
  | some response =>
    if response ≠ "" then
      acc ++ [{ stage := sinkStageName sink, ctype := "sink", raw := some response,
                caps := some (parse_sink_capabilities response) }]
    else acc

def processSinks (send : String → Option String) : List ChainEntry :=
  ["tx0sink", "tx1sink"].foldl (sinkStep send) []

/-- Step 5 (lines 536-547): the EDID/HDR settings queried per diagnosis;
the skip conditions are those of `get_all_settings` (`gasStep`). -/
def EDID_SETTINGS : List String :=
  ["edidmode", "ediddvflag", "ediddvmode", "edidhdrflag", "edidhdrmode", "hdrcustom",
   "lldv", "hdrdisable"]

/-- `VrroomConnection._analyze_hdr_chain` (lines 662-746): the rule pass
over the assembled diagnosis.  Issues and recommendations are appended in
source order: the HDR-lost critical first, the no-input warning last. -/
def analyze_hdr_chain (d : Diagnosis) : Diagnosis :=
  let settings := d.settings
  let input_hdr := d.input_hdr.format
  let output_hdr := d.output_format
  let hdrLost := input_hdr ≠ "SDR" ∧ output_hdr = "SDR"
  let issues1 : List DIssue :=
    if hdrLost then
      [{ severity := "critical", title := "HDR Lost in Signal Chain",
         description := "Input signal is " ++ input_hdr ++
           " but output is SDR. HDR is being stripped somewhere in the chain." }]
    else []
  let recs1 : List DRec :=
    if hdrLost then
      (if pyLower (dictGetD settings "edidhdrflag" "") = "off" then
        [{ priority := "high", setting := "edidhdrflag", current := "off", recommended := "on",
           title := "Enable HDR EDID Flag",
           description := "The HDR flag is disabled in EDID. Enable it so sinks advertise HDR capability.",
           command := "#vrroom set edidhdrflag on",
           menu_path := "Vrroom Web UI > EDID > HDR FLAG" }]
      else []) ++
      (if pyLower (dictGetD settings "hdrdisable" "") = "on" then
        [{ priority := "high", setting := "hdrdisable", current := "on", recommended := "off",
           title := "Disable HDR Disable Setting",
           description := "HDR is explicitly disabled. Turn this off to allow HDR passthrough.",
           command := "#vrroom set hdrdisable off",
           menu_path := "Vrroom Web UI > SIGNAL > HDR DISABLE" }]
      else [])
    else []
  let recs2 : List DRec :=
    if input_hdr = "Dolby Vision" ∧ pyLower (dictGetD settings "ediddvflag" "") ≠ "on" then
      [{ priority := "medium", setting := "ediddvflag",
         current := dictGetD settings "ediddvflag" "unknown", recommended := "on",
         title := "Enable Dolby Vision EDID Flag",
         description := "DV flag should be enabled for proper LLDV conversion.",
         command := "#vrroom set ediddvflag on",
         menu_path := "Vrroom Web UI > EDID > DV FLAG" }]
    else []
  let edid_mode := pyLower (dictGetD settings "edidmode" "")
  let recs3 : List DRec :=
    if ¬ ["automix", "custom"].contains edid_mode then
      [{ priority := "medium", setting := "edidmode", current := edid_mode,
         recommended := "automix", title := "Use AutoMix EDID Mode",
         description := "AutoMix is recommended for best compatibility with mixed HDR/SDR content.",
         command := "#vrroom set edidmode automix",
         menu_path := "Vrroom Web UI > EDID > MODE" }]
    else []
  let no_input := (d.signal_chain.filter fun s => s.ctype = "input").all
    fun s => s.connected = some false
  let issues2 : List DIssue :=
    if no_input then
      [{ severity := "warning", title := "No Input Signal Detected",
         description := "No active input signal detected. Check source connections." }]
    else []
  { d with issues := issues1 ++ issues2, recommendations := recs1 ++ recs2 ++ recs3 }

inductive DiagResult where
  | ok (d : Diagnosis)
  | failed
deriving DecidableEq

/-- `VrroomConnection.diagnose_hdr_signal_chain` (lines 433-561): after a
successful connect the five stages run (each stage-level failure only
recorded), then the rule pass; a connect failure is the only way the whole
call fails. -/
def diagnose_hdr_signal_chain (connectOk : Bool) (send : String → Option String) : DiagResult :=
  if connectOk then
    let inputs := processInputs send
    let spds := processSpds send
    let outputs := processOutputs send
    let sinks := processSinks send
    let settings := EDID_SETTINGS.foldl (gasStep send) []
    .ok (analyze_hdr_chain
      { signal_chain := inputs.1 ++ spds ++ outputs.1 ++ sinks
        input_hdr := inputs.2
        output_format := outputs.2.1
        output_details := outputs.2.2
        settings := settings
        issues := []
        recommendations := [] })
  else .failed

theorem inputStep_disconnected (send : String → Option String)
    (acc : List ChainEntry × HdrPoint) (rx r : String)
    (h : send ("get status " ++ rx) = some r)
    (hc : containsSub "no signal" (pyLower r) = true) :
    inputStep send acc rx = (acc.1 ++ [{ stage := "Input " ++ pyUpper rx, ctype := "input",
                                         connected := some false, raw := some r }], acc.2) := by
  unfold inputStep
  rw [h]
  have hno : ¬ (r ≠ "" ∧ containsSub "no signal" (pyLower r) = false) :=
    fun hcon => Bool.noConfusion (hc.symm.trans hcon.2)
  simp [hno]

theorem mem_spdStep (send : String → Option String) (l : List ChainEntry) (spd : String)
    (e : ChainEntry) (he : e ∈ spdStep send l spd) : e ∈ l ∨ e.ctype = "metadata" := by
  unfold spdStep at he
  split at he
  · exact Or.inl he
  · split at he
    · rcases List.mem_append.mp he with he | he
      · exact Or.inl he
      · exact Or.inr (by rw [List.mem_singleton.mp he])
    · exact Or.inl he

theorem mem_outputStep (send : String → Option String)
    (acc : List ChainEntry × String × Option SignalInfo) (tx : String) (e : ChainEntry)
    (he : e ∈ (outputStep send acc tx).1) : e ∈ acc.1 ∨ e.ctype = "output" := by
  unfold outputStep at he
  split at he
  · rcases List.mem_append.mp he with he | he
    · exact Or.inl he
    · exact Or.inr (by rw [List.mem_singleton.mp he])
  · split at he
    · rcases List.mem_append.mp he with he | he
      · exact Or.inl he
      · exact Or.inr (by rw [List.mem_singleton.mp he])
    · exact Or.inl he

theorem mem_sinkStep (send : String → Option String) (l : List ChainEntry) (sink : String)
    (e : ChainEntry) (he : e ∈ sinkStep send l sink) : e ∈ l ∨ e.ctype = "sink" := by
  unfold sinkStep at he
  split at he
  · exact Or.inl he
  · split at he
    · rcases List.mem_append.mp he with he | he
      · exact Or.inl he
      · exact Or.inr (by rw [List.mem_singleton.mp he])
    · exact Or.inl he

theorem mem_processSpds (send : String → Option String) (e : ChainEntry)
    (he : e ∈ processSpds send) : e.ctype = "metadata" := by
  unfold processSpds at he
  simp only [List.foldl_cons, List.foldl_nil] at he
  rcases mem_spdStep _ _ _ _ he with he | he
  · rcases mem_spdStep _ _ _ _ he with he | he
    · simp at he
    · exact he
  · exact he

theorem mem_processOutputs (send : String → Option String) (e : ChainEntry)
    (he : e ∈ (processOutputs send).1) : e.ctype = "output" := by
  unfold processOutputs at he
  simp only [List.foldl_cons, List.foldl_nil] at he
  rcases mem_outputStep _ _ _ _ he with he | he
  · rcases mem_outputStep _ _ _ _ he with he | he
    · simp at he
    · exact he
  · exact he

theorem mem_processSinks (send : String → Option String) (e : ChainEntry)
    (he : e ∈ processSinks send) : e.ctype = "sink" := by
  unfold processSinks at he
  simp only [List.foldl_cons, List.foldl_nil] at he
  rcases mem_sinkStep _ _ _ _ he with he | he
  · rcases mem_sinkStep _ _ _ _ he with he | he
    · simp at he
    · exact he
  · exact he

/-- C8: when each input status query answers with a response containing
"no signal" (both inputs recorded disconnected), the diagnosis's issue
list is exactly one warning-severity issue titled "No Input Signal
Detected". -/
theorem c8_all_inputs_disconnected (send : String → Option String) (r0 r1 : String)
    (h0 : send "get status rx0" = some r0)
    (hc0 : containsSub "no signal" (pyLower r0) = true)
    (h1 : send "get status rx1" = some r1)
    (hc1 : containsSub "no signal" (pyLower r1) = true) :
    ∃ d, diagnose_hdr_signal_chain true send = .ok d ∧
      d.issues = [{ severity := "warning", title := "No Input Signal Detected",
                    description := "No active input signal detected. Check source connections." }] := by
  have h0' : send ("get status " ++ "rx0") = some r0 := h0
  have h1' : send ("get status " ++ "rx1") = some r1 := h1
  have hin : processInputs send =
      ([{ stage := "Input " ++ pyUpper "rx0", ctype := "input", connected := some false,
          raw := some r0 },
        { stage := "Input " ++ pyUpper "rx1", ctype := "input", connected := some false,
          raw := some r1 }], {}) := by
    unfold processInputs
    simp only [List.foldl_cons, List.foldl_nil]
    rw [inputStep_disconnected send _ "rx0" r0 h0' hc0,
      inputStep_disconnected send _ "rx1" r1 h1' hc1]
    simp
  have hfspd : (processSpds send).filter (fun s => s.ctype = "input") = [] := by
    rw [List.filter_eq_nil_iff]
    intro e he
    simp [mem_processSpds send e he]
  have hfout : ((processOutputs send).1).filter (fun s => s.ctype = "input") = [] := by
    rw [List.filter_eq_nil_iff]
    intro e he
    simp [mem_processOutputs send e he]
  have hfsink : (processSinks send).filter (fun s => s.ctype = "input") = [] := by
    rw [List.filter_eq_nil_iff]
    intro e he
    simp [mem_processSinks send e he]
  refine ⟨_, rfl, ?_⟩
  unfold analyze_hdr_chain
  rw [hin]
  simp [List.filter_append, hfspd, hfout, hfsink]

/-- An oracle for the C8 witness: both inputs answer "no signal", every
other query raises. -/
def c8send : String → Option String := fun c =>
  if c = "get status rx0" ∨ c = "get status rx1" then some "no signal" else none

/-- C8 witness: the theorem applied to `c8send`. -/
theorem c8_all_inputs_disconnected_witness :
    ∃ d, diagnose_hdr_signal_chain true c8send = .ok d ∧
      d.issues = [{ severity := "warning", title := "No Input Signal Detected",
                    description := "No active input signal detected. Check source connections." }] :=
  c8_all_inputs_disconnected c8send "no signal" "no signal" (by decide) (by decide)
    (by decide) (by decide)
